/-
Verification of the OTP digest / PRESENT cipher crate (src/common/otp-digest/src/lib.rs)
and the Platform Descriptor Store parser (src/common/pds/src/lib.rs).

Machine integers are embedded as `Nat` with explicit `% 2^w` at the points where the
source performs a truncating cast or a wrapping shift; byte buffers are `List Nat`
of values below 256; fallible operations return `Option` / `Except`.
-/
import Mathlib

set_option maxRecDepth 10000

/-! ## PRESENT cipher: tables (otp-digest lib.rs, `S_BOX`, `S_BOX_INV`, `P_BOX`, `P_BOX_INV`) -/

def S_BOX : List Nat :=
  [0x0c, 0x05, 0x06, 0x0b, 0x09, 0x00, 0x0a, 0x0d,
   0x03, 0x0e, 0x0f, 0x08, 0x04, 0x07, 0x01, 0x02]

def S_BOX_INV : List Nat :=
  [0x05, 0x0e, 0x0f, 0x08, 0x0c, 0x01, 0x02, 0x0d,
   0x0b, 0x04, 0x06, 0x03, 0x00, 0x07, 0x09, 0x0a]

def P_BOX : List Nat :=
  [0x00, 0x10, 0x20, 0x30, 0x01, 0x11, 0x21, 0x31,
   0x02, 0x12, 0x22, 0x32, 0x03, 0x13, 0x23, 0x33,
   0x04, 0x14, 0x24, 0x34, 0x05, 0x15, 0x25, 0x35,
   0x06, 0x16, 0x26, 0x36, 0x07, 0x17, 0x27, 0x37,
   0x08, 0x18, 0x28, 0x38, 0x09, 0x19, 0x29, 0x39,
   0x0a, 0x1a, 0x2a, 0x3a, 0x0b, 0x1b, 0x2b, 0x3b,
   0x0c, 0x1c, 0x2c, 0x3c, 0x0d, 0x1d, 0x2d, 0x3d,
   0x0e, 0x1e, 0x2e, 0x3e, 0x0f, 0x1f, 0x2f, 0x3f]

def P_BOX_INV : List Nat :=
  [0x00, 0x04, 0x08, 0x0c, 0x10, 0x14, 0x18, 0x1c,
   0x20, 0x24, 0x28, 0x2c, 0x30, 0x34, 0x38, 0x3c,
   0x01, 0x05, 0x09, 0x0d, 0x11, 0x15, 0x19, 0x1d,
   0x21, 0x25, 0x29, 0x2d, 0x31, 0x35, 0x39, 0x3d,
   0x02, 0x06, 0x0a, 0x0e, 0x12, 0x16, 0x1a, 0x1e,
   0x22, 0x26, 0x2a, 0x2e, 0x32, 0x36, 0x3a, 0x3e,
   0x03, 0x07, 0x0b, 0x0f, 0x13, 0x17, 0x1b, 0x1f,
   0x23, 0x27, 0x2b, 0x2f, 0x33, 0x37, 0x3b, 0x3f]

/-! ## PRESENT cipher: substitution / permutation layers.

The source has two pairs of functions that differ only in the table they index
(`s_box_layer` / `s_box_layer_dec` and `p_box_layer` / `p_box_layer_dec`);
the table is factored out as a parameter here. -/

/-- `for i in (0..64).step_by(4) { output |= S[(state >> i) & 0xf] << i }`. -/
def sboxApply (tbl : List Nat) (state : Nat) : Nat :=
  (List.range 16).foldl
    (fun output i => output ||| ((tbl.getD ((state >>> (4 * i)) &&& 0x0f) 0) <<< (4 * i))) 0

def s_box_layer (state : Nat) : Nat := sboxApply S_BOX state

def s_box_layer_dec (state : Nat) : Nat := sboxApply S_BOX_INV state

/-- `for (i, v) in P_BOX.iter().enumerate() { output |= ((state >> i) & 1) << v }`. -/
def pboxApply (tbl : List Nat) (state : Nat) : Nat :=
  (List.range tbl.length).foldl
    (fun output i => output ||| (((state >>> i) &&& 0x01) <<< tbl.getD i 0)) 0

def p_box_layer (state : Nat) : Nat := pboxApply P_BOX state

def p_box_layer_dec (state : Nat) : Nat := pboxApply P_BOX_INV state

/-! ### Generic lemmas about `foldl`-of-`or` accumulation -/

lemma foldl_or_testBit (f : Nat → Nat) (l : List Nat) (a t : Nat) :
    (l.foldl (fun out i => out ||| f i) a).testBit t
      = (a.testBit t || l.any fun i => (f i).testBit t) := by
  induction l generalizing a with
  | nil => simp
  | cons h tl ih => simp [List.foldl_cons, ih, Nat.testBit_or, Bool.or_assoc]

lemma foldl_or_lt (f : Nat → Nat) (l : List Nat) (a n : Nat) (ha : a < 2 ^ n)
    (h : ∀ i ∈ l, f i < 2 ^ n) :
    l.foldl (fun out i => out ||| f i) a < 2 ^ n := by
  induction l generalizing a with
  | nil => simpa using ha
  | cons hd tl ih =>
    simp only [List.foldl_cons]
    exact ih _ (Nat.or_lt_two_pow ha (h hd (List.mem_cons_self _ _)))
      (fun i hi => h i (List.mem_cons_of_mem _ hi))

lemma any_range_collapse (n j : Nat) (hj : j < n) (f : Nat → Bool)
    (h : ∀ i, i < n → i ≠ j → f i = false) : (List.range n).any f = f j := by
  cases hfj : f j with
  | true => exact List.any_eq_true.mpr ⟨j, List.mem_range.mpr hj, hfj⟩
  | false =>
    refine List.any_eq_false.mpr fun i hi => ?_
    rcases eq_or_ne i j with rfl | hne
    · simp [hfj]
    · simp [h i (List.mem_range.mp hi) hne]

/-! ### The S-box layer acts nibble-wise -/

lemma sboxApply_testBit (tbl : List Nat) (htbl : ∀ m, m < 16 → tbl.getD m 0 < 16)
    (x t : Nat) (ht : t < 64) :
    (sboxApply tbl x).testBit t
      = (tbl.getD ((x >>> (4 * (t / 4))) &&& 0x0f) 0).testBit (t % 4) := by
  have hidx : ∀ y : Nat, (y &&& 0x0f) < 16 :=
    fun y => Nat.lt_of_le_of_lt Nat.and_le_right (by norm_num)
  unfold sboxApply
  rw [foldl_or_testBit]
  simp only [Nat.zero_testBit, Bool.false_or]
  rw [any_range_collapse 16 (t / 4) (by omega)]
  · rw [Nat.testBit_shiftLeft]
    have h1 : 4 * (t / 4) ≤ t := by omega
    have h2 : t - 4 * (t / 4) = t % 4 := by omega
    simp [h1, h2]
  · intro i hi hne
    rw [Nat.testBit_shiftLeft]
    by_cases hle : 4 * i ≤ t
    · have hgap : 4 ≤ t - 4 * i := by omega
      have hval : tbl.getD ((x >>> (4 * i)) &&& 0x0f) 0 < 2 ^ (t - 4 * i) :=
        Nat.lt_of_lt_of_le (htbl _ (hidx _))
          (le_trans (by norm_num) (Nat.pow_le_pow_right (by norm_num) hgap))
      rw [Nat.testBit_lt_two_pow hval, Bool.and_false]
    · have hd : decide (t ≥ 4 * i) = false := by simp [hle]
      rw [hd, Bool.false_and]

lemma sboxApply_lt (tbl : List Nat) (htbl : ∀ m, m < 16 → tbl.getD m 0 < 16)
    (x : Nat) : sboxApply tbl x < 2 ^ 64 := by
  have hidx : ∀ y : Nat, (y &&& 0x0f) < 16 :=
    fun y => Nat.lt_of_le_of_lt Nat.and_le_right (by norm_num)
  refine foldl_or_lt _ _ _ _ (by norm_num) fun i hi => ?_
  have hi16 : i < 16 := List.mem_range.mp hi
  rw [Nat.shiftLeft_eq]
  calc tbl.getD ((x >>> (4 * i)) &&& 0x0f) 0 * 2 ^ (4 * i)
      < 16 * 2 ^ (4 * i) :=
        (Nat.mul_lt_mul_right (Nat.pos_pow_of_pos _ (by norm_num))).mpr (htbl _ (hidx _))
    _ = 2 ^ (4 * i + 4) := by rw [Nat.pow_add]; ring
    _ ≤ 2 ^ 64 := Nat.pow_le_pow_right (by norm_num) (by omega)

lemma testBit_eq_nibble (x t : Nat) :
    x.testBit t = ((x >>> (4 * (t / 4))) &&& 0x0f).testBit (t % 4) := by
  have h15 : ∀ r, r < 4 → (0x0f : Nat).testBit r = true := by decide
  rw [Nat.testBit_and, Nat.testBit_shiftRight]
  have hsum : 4 * (t / 4) + t % 4 = t := by omega
  rw [hsum, h15 _ (by omega), Bool.and_true]

lemma sboxApply_nibble (tbl : List Nat) (htbl : ∀ m, m < 16 → tbl.getD m 0 < 16)
    (x j : Nat) (hj : j < 16) :
    ((sboxApply tbl x) >>> (4 * j)) &&& 0x0f = tbl.getD ((x >>> (4 * j)) &&& 0x0f) 0 := by
  have hidx : ∀ y : Nat, (y &&& 0x0f) < 16 :=
    fun y => Nat.lt_of_le_of_lt Nat.and_le_right (by norm_num)
  apply Nat.eq_of_testBit_eq
  intro t
  rw [Nat.testBit_and, Nat.testBit_shiftRight]
  by_cases ht : t < 4
  · have h64 : 4 * j + t < 64 := by omega
    rw [sboxApply_testBit tbl htbl x _ h64]
    have e1 : (4 * j + t) / 4 = j := by omega
    have e2 : (4 * j + t) % 4 = t := by omega
    have h15 : ∀ r, r < 4 → (0x0f : Nat).testBit r = true := by decide
    rw [e1, e2, h15 _ ht, Bool.and_true]
  · have hpow : (16 : Nat) ≤ 2 ^ t := by
      calc (16 : Nat) = 2 ^ 4 := by norm_num
        _ ≤ 2 ^ t := Nat.pow_le_pow_right (by norm_num) (by omega)
    have h15 : ((0x0f : Nat)).testBit t = false :=
      Nat.testBit_lt_two_pow (Nat.lt_of_lt_of_le (by norm_num) hpow)
    have hv : (tbl.getD ((x >>> (4 * j)) &&& 0x0f) 0).testBit t = false :=
      Nat.testBit_lt_two_pow (Nat.lt_of_lt_of_le (htbl _ (hidx _)) hpow)
    rw [h15, hv, Bool.and_false]

lemma sbox_table_facts :
    ∀ n, n < 16 → S_BOX.getD n 0 < 16 ∧ S_BOX_INV.getD n 0 < 16 ∧
      S_BOX_INV.getD (S_BOX.getD n 0) 0 = n := by decide

lemma s_box_roundtrip (x : Nat) (hx : x < 2 ^ 64) :
    s_box_layer_dec (s_box_layer x) = x := by
  have hS : ∀ m, m < 16 → S_BOX.getD m 0 < 16 := fun m hm => (sbox_table_facts m hm).1
  have hSI : ∀ m, m < 16 → S_BOX_INV.getD m 0 < 16 := fun m hm => (sbox_table_facts m hm).2.1
  have hidx : ∀ y : Nat, (y &&& 0x0f) < 16 :=
    fun y => Nat.lt_of_le_of_lt Nat.and_le_right (by norm_num)
  apply Nat.eq_of_testBit_eq
  intro t
  by_cases ht : t < 64
  · unfold s_box_layer_dec s_box_layer
    rw [sboxApply_testBit S_BOX_INV hSI _ t ht,
        sboxApply_nibble S_BOX hS x (t / 4) (by omega),
        (sbox_table_facts _ (hidx _)).2.2, ← testBit_eq_nibble]
  · have h1 : s_box_layer_dec (s_box_layer x) < 2 ^ t :=
      Nat.lt_of_lt_of_le (sboxApply_lt S_BOX_INV hSI _)
        (Nat.pow_le_pow_right (by norm_num) (by omega))
    have h2 : x < 2 ^ t :=
      Nat.lt_of_lt_of_le hx (Nat.pow_le_pow_right (by norm_num) (by omega))
    rw [Nat.testBit_lt_two_pow h1, Nat.testBit_lt_two_pow h2]

/-! ### The P-box layer permutes bits -/

lemma pbox_term_testBit (x i v t : Nat) :
    (((x >>> i) &&& 0x01) <<< v).testBit t = (decide (v = t) && x.testBit i) := by
  rw [Nat.testBit_shiftLeft]
  rcases Nat.lt_trichotomy v t with hvt | hvt | hvt
  · have hd : decide (v = t) = false := by simp [Nat.ne_of_lt hvt]
    have h2 : (2 : Nat) ≤ 2 ^ (t - v) := by
      calc (2 : Nat) = 2 ^ 1 := by norm_num
        _ ≤ 2 ^ (t - v) := Nat.pow_le_pow_right (by norm_num) (by omega)
    have hlt : (x >>> i) &&& 0x01 < 2 ^ (t - v) :=
      Nat.lt_of_le_of_lt Nat.and_le_right
        (Nat.lt_of_lt_of_le (by norm_num) h2)
    rw [Nat.testBit_lt_two_pow hlt, hd, Bool.and_false, Bool.false_and]
  · subst hvt
    have h1 : ((x >>> i) &&& 0x01).testBit 0 = x.testBit i := by
      rw [Nat.testBit_and, Nat.testBit_shiftRight, Nat.add_zero]
      simp
    simp [h1]
  · have hd1 : decide (t ≥ v) = false := by simp [Nat.not_le.mpr hvt]
    have hd2 : decide (v = t) = false := by simp [Nat.ne_of_gt hvt]
    rw [hd1, hd2, Bool.false_and, Bool.false_and]

lemma pboxApply_testBit (tbl : List Nat) (x t : Nat) :
    (pboxApply tbl x).testBit t
      = (List.range tbl.length).any fun i => decide (tbl.getD i 0 = t) && x.testBit i := by
  unfold pboxApply
  rw [foldl_or_testBit]
  simp only [Nat.zero_testBit, Bool.false_or, pbox_term_testBit]

lemma pboxApply_lt (tbl : List Nat) (htbl : ∀ i, i < tbl.length → tbl.getD i 0 < 64)
    (x : Nat) : pboxApply tbl x < 2 ^ 64 := by
  refine foldl_or_lt _ _ _ _ (by norm_num) fun i hi => ?_
  have hv := htbl i (List.mem_range.mp hi)
  rw [Nat.shiftLeft_eq]
  calc ((x >>> i) &&& 0x01) * 2 ^ tbl.getD i 0
      ≤ 1 * 2 ^ tbl.getD i 0 :=
        Nat.mul_le_mul_right _ Nat.and_le_right
    _ < 2 ^ 64 := by
        rw [Nat.one_mul]
        exact Nat.pow_lt_pow_right (by norm_num) hv

lemma pbox_table_facts :
    ∀ t, t < 64 → P_BOX.getD t 0 < 64 ∧ P_BOX_INV.getD t 0 < 64 ∧
      P_BOX.getD (P_BOX_INV.getD t 0) 0 = t ∧ P_BOX_INV.getD (P_BOX.getD t 0) 0 = t := by
  decide

lemma pbox_table_uniq :
    ∀ t, t < 64 → ∀ i, i < 64 →
      ((P_BOX.getD i 0 = t) = (i = P_BOX_INV.getD t 0)) ∧
      ((P_BOX_INV.getD i 0 = t) = (i = P_BOX.getD t 0)) := by
  decide

lemma p_box_layer_testBit (x t : Nat) (ht : t < 64) :
    (p_box_layer x).testBit t = x.testBit (P_BOX_INV.getD t 0) := by
  have hlen : P_BOX.length = 64 := by decide
  unfold p_box_layer
  rw [pboxApply_testBit, hlen,
    any_range_collapse 64 (P_BOX_INV.getD t 0) (pbox_table_facts t ht).2.1]
  · rw [(pbox_table_facts t ht).2.2.1]
    simp
  · intro i hi hne
    have huniq := (pbox_table_uniq t ht i hi).1
    have hfalse : P_BOX.getD i 0 ≠ t := fun hc => hne (Eq.mp huniq hc)
    rw [decide_eq_false hfalse, Bool.false_and]

lemma p_box_layer_dec_testBit (x t : Nat) (ht : t < 64) :
    (p_box_layer_dec x).testBit t = x.testBit (P_BOX.getD t 0) := by
  have hlen : P_BOX_INV.length = 64 := by decide
  unfold p_box_layer_dec
  rw [pboxApply_testBit, hlen,
    any_range_collapse 64 (P_BOX.getD t 0) (pbox_table_facts t ht).1]
  · rw [(pbox_table_facts t ht).2.2.2]
    simp
  · intro i hi hne
    have huniq := (pbox_table_uniq t ht i hi).2
    have hfalse : P_BOX_INV.getD i 0 ≠ t := fun hc => hne (Eq.mp huniq hc)
    rw [decide_eq_false hfalse, Bool.false_and]

lemma p_box_roundtrip (x : Nat) (hx : x < 2 ^ 64) :
    p_box_layer_dec (p_box_layer x) = x := by
  have hPI : ∀ i, i < P_BOX_INV.length → P_BOX_INV.getD i 0 < 64 := by decide
  apply Nat.eq_of_testBit_eq
  intro t
  by_cases ht : t < 64
  · rw [p_box_layer_dec_testBit _ t ht,
        p_box_layer_testBit _ _ (pbox_table_facts t ht).1,
        (pbox_table_facts t ht).2.2.2]
  · have h1 : p_box_layer_dec (p_box_layer x) < 2 ^ t :=
      Nat.lt_of_lt_of_le (pboxApply_lt P_BOX_INV hPI _)
        (Nat.pow_le_pow_right (by norm_num) (by omega))
    have h2 : x < 2 ^ t :=
      Nat.lt_of_lt_of_le hx (Nat.pow_le_pow_right (by norm_num) (by omega))
    rw [Nat.testBit_lt_two_pow h1, Nat.testBit_lt_two_pow h2]

lemma s_box_layer_lt (x : Nat) : s_box_layer x < 2 ^ 64 :=
  sboxApply_lt S_BOX (fun m hm => (sbox_table_facts m hm).1) x

lemma p_box_layer_lt (x : Nat) : p_box_layer x < 2 ^ 64 :=
  pboxApply_lt P_BOX (by decide) x

/-! ## PRESENT cipher: key schedules and block operations -/

/-- `u128::from_le_bytes` / `u64::from_le_bytes`: byte `i` contributes `b * 256^i`. -/
def fromLeBytes : List Nat → Nat
  | [] => 0
  | b :: rest => b + 256 * fromLeBytes rest

/-- `u128::to_le_bytes`. -/
def toLeBytes16 (key : Nat) : List Nat :=
  (List.range 16).map fun i => (key >>> (8 * i)) % 256

/-- Loop body sequence of `generate_round_keys_80`: emit `(key >> 16) as u64`, then
rotate (`rawKey[19:]+rawKey[0:19]` on the 128-bit padded register), apply the S-box
to nibble 76..80, and XOR the 1-indexed round counter at bit 15. -/
def roundKeys80Go : Nat → Nat → Nat → List Nat
  | _, _, 0 => []
  | key, i, n + 1 =>
    let rk := (key >>> 16) % 2 ^ 64
    let key1 := ((key &&& 0x7ffff) <<< 61) ||| (key >>> 19)
    let key2 := ((S_BOX.getD ((key1 >>> 76) &&& 0xF) 0) <<< 76) ||| (key1 &&& (2 ^ 76 - 1))
    let key3 := key2 ^^^ ((i + 1) <<< 15)
    rk :: roundKeys80Go key3 (i + 1) n

/-- `generate_round_keys_80`: the 10 key bytes are padded into bytes 6..16 of a
16-byte little-endian register. -/
def generate_round_keys_80 (key : List Nat) : List Nat :=
  roundKeys80Go (fromLeBytes (List.replicate 6 0 ++ key)) 0 32

/-- `u128::rotate_left(61)` (wrapping). -/
def rotl61 (x : Nat) : Nat := ((x <<< 61) % 2 ^ 128) ||| (x >>> 67)

/-- Loop body sequence of `generate_round_keys_128`: emit `(key >> 64) as u64`, then
rotate left by 61, apply the S-box to the top two nibbles, and XOR the 1-indexed
round counter at bit 62. -/
def roundKeys128Go : Nat → Nat → Nat → List Nat
  | _, _, 0 => []
  | key, i, n + 1 =>
    let rk := (key >>> 64) % 2 ^ 64
    let key1 := rotl61 key
    let key2 := ((S_BOX.getD ((key1 >>> 124) &&& 0xF) 0) <<< 124)
      ||| ((S_BOX.getD ((key1 >>> 120) &&& 0xF) 0) <<< 120)
      ||| (key1 &&& (2 ^ 120 - 1))
    let key3 := key2 ^^^ ((i + 1) <<< 62)
    rk :: roundKeys128Go key3 (i + 1) n

def generate_round_keys_128 (key : List Nat) : List Nat :=
  roundKeys128Go (fromLeBytes key) 0 32

/-- `pub struct Present { round_keys: [u64; ROUNDS] }`. -/
structure Present where
  round_keys : List Nat

def Present.new_80 (key : List Nat) : Present :=
  ⟨generate_round_keys_80 key⟩

def Present.new_128 (key : List Nat) : Present :=
  ⟨generate_round_keys_128 key⟩

/-- One round of `encrypt_block`'s loop over `round_keys[1..]`. -/
def encRound (state rk : Nat) : Nat := p_box_layer (s_box_layer state) ^^^ rk

/-- One round of `decrypt_block`'s loop over `round_keys[1..].iter().rev()`. -/
def decRound (state rk : Nat) : Nat := s_box_layer_dec (p_box_layer_dec (state ^^^ rk))

def Present.encrypt_block (p : Present) (block : Nat) : Nat :=
  p.round_keys.tail.foldl encRound (block ^^^ p.round_keys.headD 0)

def Present.decrypt_block (p : Present) (block : Nat) : Nat :=
  (p.round_keys.tail.reverse.foldl decRound block) ^^^ p.round_keys.headD 0

/-! ### Round-trip: `decrypt_block` inverts `encrypt_block` -/

lemma xor_xor_cancel (a k : Nat) : (a ^^^ k) ^^^ k = a := by
  rw [Nat.xor_assoc, Nat.xor_self, Nat.xor_zero]

lemma decRound_encRound (x k : Nat) (hx : x < 2 ^ 64) :
    decRound (encRound x k) k = x := by
  unfold decRound encRound
  rw [xor_xor_cancel, p_box_roundtrip _ (s_box_layer_lt x), s_box_roundtrip _ hx]

lemma encRound_lt (x k : Nat) (hk : k < 2 ^ 64) : encRound x k < 2 ^ 64 :=
  Nat.xor_lt_two_pow (p_box_layer_lt _) hk

lemma foldl_rounds_inv (l : List Nat) (hl : ∀ k ∈ l, k < 2 ^ 64)
    (x : Nat) (hx : x < 2 ^ 64) :
    l.reverse.foldl decRound (l.foldl encRound x) = x := by
  induction l generalizing x with
  | nil => simp
  | cons hd tl ih =>
    have hhd : hd < 2 ^ 64 := hl hd (List.mem_cons_self _ _)
    have htl : ∀ k ∈ tl, k < 2 ^ 64 := fun k hk => hl k (List.mem_cons_of_mem _ hk)
    simp only [List.foldl_cons, List.reverse_cons, List.foldl_append, List.foldl_cons,
      List.foldl_nil]
    rw [ih htl (encRound x hd) (encRound_lt x hd hhd), decRound_encRound x hd hx]

lemma roundKeys80Go_lt : ∀ n key i, ∀ k ∈ roundKeys80Go key i n, k < 2 ^ 64 := by
  intro n
  induction n with
  | zero => intro key i k hk; simp [roundKeys80Go] at hk
  | succ m ih =>
    intro key i k hk
    simp only [roundKeys80Go, List.mem_cons] at hk
    rcases hk with rfl | hk
    · exact Nat.mod_lt _ (by norm_num)
    · exact ih _ _ k hk

lemma roundKeys128Go_lt : ∀ n key i, ∀ k ∈ roundKeys128Go key i n, k < 2 ^ 64 := by
  intro n
  induction n with
  | zero => intro key i k hk; simp [roundKeys128Go] at hk
  | succ m ih =>
    intro key i k hk
    simp only [roundKeys128Go, List.mem_cons] at hk
    rcases hk with rfl | hk
    · exact Nat.mod_lt _ (by norm_num)
    · exact ih _ _ k hk

lemma present_roundtrip_of_keys (p : Present) (hk : ∀ k ∈ p.round_keys, k < 2 ^ 64)
    (b : Nat) (hb : b < 2 ^ 64) :
    p.decrypt_block (p.encrypt_block b) = b := by
  unfold Present.encrypt_block Present.decrypt_block
  cases hrk : p.round_keys with
  | nil => simp [hrk]
  | cons rk0 rest =>
    have hrest : ∀ k ∈ rest, k < 2 ^ 64 := by
      intro k hkk
      exact hk k (by rw [hrk]; exact List.mem_cons_of_mem _ hkk)
    have hrk0 : rk0 < 2 ^ 64 := hk rk0 (by rw [hrk]; exact List.mem_cons_self _ _)
    simp only [hrk, List.tail_cons, List.headD_cons]
    rw [foldl_rounds_inv rest hrest (b ^^^ rk0) (Nat.xor_lt_two_pow hb hrk0),
      xor_xor_cancel]

/-! ### Known-answer evaluations, computed in 8-round chunks -/

lemma kat_enc80_zero : (Present.new_80 (List.replicate 10 0)).encrypt_block 0x0 = 0x5579c1387b228445 := by
  have hkeys : (Present.new_80 (List.replicate 10 0)).round_keys = [0x0, 0xc000000000000000, 0x5000180000000001, 0x60000a0003000001, 0xb0000c0001400062, 0x900016000180002a, 0x1920002c00033, 0xa000a0003240005b, 0xd000d4001400064c, 0x30017a001a800284, 0xe01926002f400355, 0xf00a1c0324c005ed, 0x800d5e014380649e, 0x4017b001abc02876, 0x71926802f600357f, 0x10a1ce324d005ec7, 0x20d5e21439c649a8, 0xc17b041abc428730, 0xc926b82f60835781, 0x6a1cd924d705ec19, 0xbd5e0d439b249aea, 0x7b077abc1a8736e, 0x426ba0f60ef5783e, 0x41cda84d741ec1d5, 0xf5e0e839b509ae8f, 0x2b075ebc1d0736ad, 0x86ba2560ebd783ad, 0x8cdab0d744ac1d77, 0x1e0eb19b561ae89b, 0xd075c3c1d6336acd, 0x8ba27a0eb8783ac9, 0x6dab31744f41d700] := by decide
  rw [Present.encrypt_block, hkeys]
  show List.foldl encRound (0x0 ^^^ 0x0) [0xc000000000000000, 0x5000180000000001, 0x60000a0003000001, 0xb0000c0001400062, 0x900016000180002a, 0x1920002c00033, 0xa000a0003240005b, 0xd000d4001400064c, 0x30017a001a800284, 0xe01926002f400355, 0xf00a1c0324c005ed, 0x800d5e014380649e, 0x4017b001abc02876, 0x71926802f600357f, 0x10a1ce324d005ec7, 0x20d5e21439c649a8, 0xc17b041abc428730, 0xc926b82f60835781, 0x6a1cd924d705ec19, 0xbd5e0d439b249aea, 0x7b077abc1a8736e, 0x426ba0f60ef5783e, 0x41cda84d741ec1d5, 0xf5e0e839b509ae8f, 0x2b075ebc1d0736ad, 0x86ba2560ebd783ad, 0x8cdab0d744ac1d77, 0x1e0eb19b561ae89b, 0xd075c3c1d6336acd, 0x8ba27a0eb8783ac9, 0x6dab31744f41d700] = 0x5579c1387b228445
  have hsplit : ([0xc000000000000000, 0x5000180000000001, 0x60000a0003000001, 0xb0000c0001400062, 0x900016000180002a, 0x1920002c00033, 0xa000a0003240005b, 0xd000d4001400064c, 0x30017a001a800284, 0xe01926002f400355, 0xf00a1c0324c005ed, 0x800d5e014380649e, 0x4017b001abc02876, 0x71926802f600357f, 0x10a1ce324d005ec7, 0x20d5e21439c649a8, 0xc17b041abc428730, 0xc926b82f60835781, 0x6a1cd924d705ec19, 0xbd5e0d439b249aea, 0x7b077abc1a8736e, 0x426ba0f60ef5783e, 0x41cda84d741ec1d5, 0xf5e0e839b509ae8f, 0x2b075ebc1d0736ad, 0x86ba2560ebd783ad, 0x8cdab0d744ac1d77, 0x1e0eb19b561ae89b, 0xd075c3c1d6336acd, 0x8ba27a0eb8783ac9, 0x6dab31744f41d700] : List Nat)
      = [0xc000000000000000, 0x5000180000000001, 0x60000a0003000001, 0xb0000c0001400062, 0x900016000180002a, 0x1920002c00033, 0xa000a0003240005b, 0xd000d4001400064c] ++ ([0x30017a001a800284, 0xe01926002f400355, 0xf00a1c0324c005ed, 0x800d5e014380649e, 0x4017b001abc02876, 0x71926802f600357f, 0x10a1ce324d005ec7, 0x20d5e21439c649a8] ++ ([0xc17b041abc428730, 0xc926b82f60835781, 0x6a1cd924d705ec19, 0xbd5e0d439b249aea, 0x7b077abc1a8736e, 0x426ba0f60ef5783e, 0x41cda84d741ec1d5, 0xf5e0e839b509ae8f] ++ [0x2b075ebc1d0736ad, 0x86ba2560ebd783ad, 0x8cdab0d744ac1d77, 0x1e0eb19b561ae89b, 0xd075c3c1d6336acd, 0x8ba27a0eb8783ac9, 0x6dab31744f41d700])) := by rfl
  rw [hsplit, List.foldl_append, List.foldl_append, List.foldl_append]
  have h1 : List.foldl encRound (0x0 ^^^ 0x0) [0xc000000000000000, 0x5000180000000001, 0x60000a0003000001, 0xb0000c0001400062, 0x900016000180002a, 0x1920002c00033, 0xa000a0003240005b, 0xd000d4001400064c] = 0x6ba06c48b513e6cc := by decide
  have h2 : List.foldl encRound 0x6ba06c48b513e6cc [0x30017a001a800284, 0xe01926002f400355, 0xf00a1c0324c005ed, 0x800d5e014380649e, 0x4017b001abc02876, 0x71926802f600357f, 0x10a1ce324d005ec7, 0x20d5e21439c649a8] = 0x79a85748fb63901e := by decide
  have h3 : List.foldl encRound 0x79a85748fb63901e [0xc17b041abc428730, 0xc926b82f60835781, 0x6a1cd924d705ec19, 0xbd5e0d439b249aea, 0x7b077abc1a8736e, 0x426ba0f60ef5783e, 0x41cda84d741ec1d5, 0xf5e0e839b509ae8f] = 0x2640bb2b3e44d53c := by decide
  have h4 : List.foldl encRound 0x2640bb2b3e44d53c [0x2b075ebc1d0736ad, 0x86ba2560ebd783ad, 0x8cdab0d744ac1d77, 0x1e0eb19b561ae89b, 0xd075c3c1d6336acd, 0x8ba27a0eb8783ac9, 0x6dab31744f41d700] = 0x5579c1387b228445 := by decide
  rw [h1, h2, h3, h4]

lemma kat_enc128_zero_p0 : (Present.new_128 (List.replicate 16 0)).encrypt_block 0x0 = 0x96db702a2e6900af := by
  have hkeys : (Present.new_128 (List.replicate 16 0)).round_keys = [0x0, 0xcc00000000000000, 0xc300000000000000, 0x5b30000000000000, 0x580c000000000001, 0x656cc00000000001, 0x6e60300000000001, 0xb595b30000000001, 0xbeb980c000000002, 0x96d656cc00000002, 0x9ffae60300000002, 0x65b595b30000002, 0xf7feb980c000003, 0xac196d656cc00003, 0xa33dffae60300003, 0xd6b065b595b30003, 0xdf8cf7feb980c004, 0x3b5ac196d656cc04, 0x387e33dffae60304, 0xeced6b065b595b34, 0xe3e1f8cf7feb9809, 0x6bb3b5ac196d6569, 0xbb8f87e33dffae65, 0x80aeced6b065b590, 0xc1ee3e1f8cf7febf, 0x2602bb3b5ac196d0, 0xcb07b8f87e33dffc, 0x34980aeced6b065d, 0x8b2c1ee3e1f8cf78, 0x54d2602bb3b5ac1e, 0x4a2cb07b8f87e33a, 0x97534980aeced6b7] := by decide
  rw [Present.encrypt_block, hkeys]
  show List.foldl encRound (0x0 ^^^ 0x0) [0xcc00000000000000, 0xc300000000000000, 0x5b30000000000000, 0x580c000000000001, 0x656cc00000000001, 0x6e60300000000001, 0xb595b30000000001, 0xbeb980c000000002, 0x96d656cc00000002, 0x9ffae60300000002, 0x65b595b30000002, 0xf7feb980c000003, 0xac196d656cc00003, 0xa33dffae60300003, 0xd6b065b595b30003, 0xdf8cf7feb980c004, 0x3b5ac196d656cc04, 0x387e33dffae60304, 0xeced6b065b595b34, 0xe3e1f8cf7feb9809, 0x6bb3b5ac196d6569, 0xbb8f87e33dffae65, 0x80aeced6b065b590, 0xc1ee3e1f8cf7febf, 0x2602bb3b5ac196d0, 0xcb07b8f87e33dffc, 0x34980aeced6b065d, 0x8b2c1ee3e1f8cf78, 0x54d2602bb3b5ac1e, 0x4a2cb07b8f87e33a, 0x97534980aeced6b7] = 0x96db702a2e6900af
  have hsplit : ([0xcc00000000000000, 0xc300000000000000, 0x5b30000000000000, 0x580c000000000001, 0x656cc00000000001, 0x6e60300000000001, 0xb595b30000000001, 0xbeb980c000000002, 0x96d656cc00000002, 0x9ffae60300000002, 0x65b595b30000002, 0xf7feb980c000003, 0xac196d656cc00003, 0xa33dffae60300003, 0xd6b065b595b30003, 0xdf8cf7feb980c004, 0x3b5ac196d656cc04, 0x387e33dffae60304, 0xeced6b065b595b34, 0xe3e1f8cf7feb9809, 0x6bb3b5ac196d6569, 0xbb8f87e33dffae65, 0x80aeced6b065b590, 0xc1ee3e1f8cf7febf, 0x2602bb3b5ac196d0, 0xcb07b8f87e33dffc, 0x34980aeced6b065d, 0x8b2c1ee3e1f8cf78, 0x54d2602bb3b5ac1e, 0x4a2cb07b8f87e33a, 0x97534980aeced6b7] : List Nat)
      = [0xcc00000000000000, 0xc300000000000000, 0x5b30000000000000, 0x580c000000000001, 0x656cc00000000001, 0x6e60300000000001, 0xb595b30000000001, 0xbeb980c000000002] ++ ([0x96d656cc00000002, 0x9ffae60300000002, 0x65b595b30000002, 0xf7feb980c000003, 0xac196d656cc00003, 0xa33dffae60300003, 0xd6b065b595b30003, 0xdf8cf7feb980c004] ++ ([0x3b5ac196d656cc04, 0x387e33dffae60304, 0xeced6b065b595b34, 0xe3e1f8cf7feb9809, 0x6bb3b5ac196d6569, 0xbb8f87e33dffae65, 0x80aeced6b065b590, 0xc1ee3e1f8cf7febf] ++ [0x2602bb3b5ac196d0, 0xcb07b8f87e33dffc, 0x34980aeced6b065d, 0x8b2c1ee3e1f8cf78, 0x54d2602bb3b5ac1e, 0x4a2cb07b8f87e33a, 0x97534980aeced6b7])) := by rfl
  rw [hsplit, List.foldl_append, List.foldl_append, List.foldl_append]
  have h1 : List.foldl encRound (0x0 ^^^ 0x0) [0xcc00000000000000, 0xc300000000000000, 0x5b30000000000000, 0x580c000000000001, 0x656cc00000000001, 0x6e60300000000001, 0xb595b30000000001, 0xbeb980c000000002] = 0x32a21fcaf8842a05 := by decide
  have h2 : List.foldl encRound 0x32a21fcaf8842a05 [0x96d656cc00000002, 0x9ffae60300000002, 0x65b595b30000002, 0xf7feb980c000003, 0xac196d656cc00003, 0xa33dffae60300003, 0xd6b065b595b30003, 0xdf8cf7feb980c004] = 0x1bc3a5721fb7bfc8 := by decide
  have h3 : List.foldl encRound 0x1bc3a5721fb7bfc8 [0x3b5ac196d656cc04, 0x387e33dffae60304, 0xeced6b065b595b34, 0xe3e1f8cf7feb9809, 0x6bb3b5ac196d6569, 0xbb8f87e33dffae65, 0x80aeced6b065b590, 0xc1ee3e1f8cf7febf] = 0x3190e6e9486b280 := by decide
  have h4 : List.foldl encRound 0x3190e6e9486b280 [0x2602bb3b5ac196d0, 0xcb07b8f87e33dffc, 0x34980aeced6b065d, 0x8b2c1ee3e1f8cf78, 0x54d2602bb3b5ac1e, 0x4a2cb07b8f87e33a, 0x97534980aeced6b7] = 0x96db702a2e6900af := by decide
  rw [h1, h2, h3, h4]

lemma kat_enc128_zero_p1 : (Present.new_128 (List.replicate 16 0)).encrypt_block 0xffffffffffffffff = 0x3c6019e5e5edd563 := by
  have hkeys : (Present.new_128 (List.replicate 16 0)).round_keys = [0x0, 0xcc00000000000000, 0xc300000000000000, 0x5b30000000000000, 0x580c000000000001, 0x656cc00000000001, 0x6e60300000000001, 0xb595b30000000001, 0xbeb980c000000002, 0x96d656cc00000002, 0x9ffae60300000002, 0x65b595b30000002, 0xf7feb980c000003, 0xac196d656cc00003, 0xa33dffae60300003, 0xd6b065b595b30003, 0xdf8cf7feb980c004, 0x3b5ac196d656cc04, 0x387e33dffae60304, 0xeced6b065b595b34, 0xe3e1f8cf7feb9809, 0x6bb3b5ac196d6569, 0xbb8f87e33dffae65, 0x80aeced6b065b590, 0xc1ee3e1f8cf7febf, 0x2602bb3b5ac196d0, 0xcb07b8f87e33dffc, 0x34980aeced6b065d, 0x8b2c1ee3e1f8cf78, 0x54d2602bb3b5ac1e, 0x4a2cb07b8f87e33a, 0x97534980aeced6b7] := by decide
  rw [Present.encrypt_block, hkeys]
  show List.foldl encRound (0xffffffffffffffff ^^^ 0x0) [0xcc00000000000000, 0xc300000000000000, 0x5b30000000000000, 0x580c000000000001, 0x656cc00000000001, 0x6e60300000000001, 0xb595b30000000001, 0xbeb980c000000002, 0x96d656cc00000002, 0x9ffae60300000002, 0x65b595b30000002, 0xf7feb980c000003, 0xac196d656cc00003, 0xa33dffae60300003, 0xd6b065b595b30003, 0xdf8cf7feb980c004, 0x3b5ac196d656cc04, 0x387e33dffae60304, 0xeced6b065b595b34, 0xe3e1f8cf7feb9809, 0x6bb3b5ac196d6569, 0xbb8f87e33dffae65, 0x80aeced6b065b590, 0xc1ee3e1f8cf7febf, 0x2602bb3b5ac196d0, 0xcb07b8f87e33dffc, 0x34980aeced6b065d, 0x8b2c1ee3e1f8cf78, 0x54d2602bb3b5ac1e, 0x4a2cb07b8f87e33a, 0x97534980aeced6b7] = 0x3c6019e5e5edd563
  have hsplit : ([0xcc00000000000000, 0xc300000000000000, 0x5b30000000000000, 0x580c000000000001, 0x656cc00000000001, 0x6e60300000000001, 0xb595b30000000001, 0xbeb980c000000002, 0x96d656cc00000002, 0x9ffae60300000002, 0x65b595b30000002, 0xf7feb980c000003, 0xac196d656cc00003, 0xa33dffae60300003, 0xd6b065b595b30003, 0xdf8cf7feb980c004, 0x3b5ac196d656cc04, 0x387e33dffae60304, 0xeced6b065b595b34, 0xe3e1f8cf7feb9809, 0x6bb3b5ac196d6569, 0xbb8f87e33dffae65, 0x80aeced6b065b590, 0xc1ee3e1f8cf7febf, 0x2602bb3b5ac196d0, 0xcb07b8f87e33dffc, 0x34980aeced6b065d, 0x8b2c1ee3e1f8cf78, 0x54d2602bb3b5ac1e, 0x4a2cb07b8f87e33a, 0x97534980aeced6b7] : List Nat)
      = [0xcc00000000000000, 0xc300000000000000, 0x5b30000000000000, 0x580c000000000001, 0x656cc00000000001, 0x6e60300000000001, 0xb595b30000000001, 0xbeb980c000000002] ++ ([0x96d656cc00000002, 0x9ffae60300000002, 0x65b595b30000002, 0xf7feb980c000003, 0xac196d656cc00003, 0xa33dffae60300003, 0xd6b065b595b30003, 0xdf8cf7feb980c004] ++ ([0x3b5ac196d656cc04, 0x387e33dffae60304, 0xeced6b065b595b34, 0xe3e1f8cf7feb9809, 0x6bb3b5ac196d6569, 0xbb8f87e33dffae65, 0x80aeced6b065b590, 0xc1ee3e1f8cf7febf] ++ [0x2602bb3b5ac196d0, 0xcb07b8f87e33dffc, 0x34980aeced6b065d, 0x8b2c1ee3e1f8cf78, 0x54d2602bb3b5ac1e, 0x4a2cb07b8f87e33a, 0x97534980aeced6b7])) := by rfl
  rw [hsplit, List.foldl_append, List.foldl_append, List.foldl_append]
  have h1 : List.foldl encRound (0xffffffffffffffff ^^^ 0x0) [0xcc00000000000000, 0xc300000000000000, 0x5b30000000000000, 0x580c000000000001, 0x656cc00000000001, 0x6e60300000000001, 0xb595b30000000001, 0xbeb980c000000002] = 0x2368e02028e44baf := by decide
  have h2 : List.foldl encRound 0x2368e02028e44baf [0x96d656cc00000002, 0x9ffae60300000002, 0x65b595b30000002, 0xf7feb980c000003, 0xac196d656cc00003, 0xa33dffae60300003, 0xd6b065b595b30003, 0xdf8cf7feb980c004] = 0x73e90756d6102b03 := by decide
  have h3 : List.foldl encRound 0x73e90756d6102b03 [0x3b5ac196d656cc04, 0x387e33dffae60304, 0xeced6b065b595b34, 0xe3e1f8cf7feb9809, 0x6bb3b5ac196d6569, 0xbb8f87e33dffae65, 0x80aeced6b065b590, 0xc1ee3e1f8cf7febf] = 0x7f326b02272238f0 := by decide
  have h4 : List.foldl encRound 0x7f326b02272238f0 [0x2602bb3b5ac196d0, 0xcb07b8f87e33dffc, 0x34980aeced6b065d, 0x8b2c1ee3e1f8cf78, 0x54d2602bb3b5ac1e, 0x4a2cb07b8f87e33a, 0x97534980aeced6b7] = 0x3c6019e5e5edd563 := by decide
  rw [h1, h2, h3, h4]

lemma kat_enc128_ff_p0 : (Present.new_128 (List.replicate 16 0xff)).encrypt_block 0x0 = 0x13238c710272a5d8 := by
  have hkeys : (Present.new_128 (List.replicate 16 0xff)).round_keys = [0xffffffffffffffff, 0x22ffffffffffffff, 0x2dffffffffffffff, 0x148bffffffffffff, 0x19b7fffffffffffe, 0x74522ffffffffffe, 0x7966dffffffffffe, 0x47d148bffffffffe, 0x40e59b7ffffffffd, 0x871f4522fffffffd, 0x8003966dfffffffd, 0xf11c7d148bfffffd, 0xfa000e59b7fffffc, 0xe2c471f4522ffffc, 0xede8003966dffffc, 0x328b11c7d148bffc, 0x3db7a000e59b7ffb, 0xd4ca2c471f4522fb, 0xd9f6de8003966dfb, 0xa25328b11c7d148f, 0x1d67db7a000e59b2, 0x1894ca2c471f457, 0x14759f6de8003963, 0xa30625328b11c7d4, 0xec51d67db7a000e3, 0xd68c1894ca2c4719, 0x6bb14759f6de8005, 0xfb5a30625328b11a, 0xaec51d67db7a07, 0x1bed68c1894ca2c3, 0xa902bb14759f6def, 0x2c6fb5a30625328c] := by decide
  rw [Present.encrypt_block, hkeys]
  show List.foldl encRound (0x0 ^^^ 0xffffffffffffffff) [0x22ffffffffffffff, 0x2dffffffffffffff, 0x148bffffffffffff, 0x19b7fffffffffffe, 0x74522ffffffffffe, 0x7966dffffffffffe, 0x47d148bffffffffe, 0x40e59b7ffffffffd, 0x871f4522fffffffd, 0x8003966dfffffffd, 0xf11c7d148bfffffd, 0xfa000e59b7fffffc, 0xe2c471f4522ffffc, 0xede8003966dffffc, 0x328b11c7d148bffc, 0x3db7a000e59b7ffb, 0xd4ca2c471f4522fb, 0xd9f6de8003966dfb, 0xa25328b11c7d148f, 0x1d67db7a000e59b2, 0x1894ca2c471f457, 0x14759f6de8003963, 0xa30625328b11c7d4, 0xec51d67db7a000e3, 0xd68c1894ca2c4719, 0x6bb14759f6de8005, 0xfb5a30625328b11a, 0xaec51d67db7a07, 0x1bed68c1894ca2c3, 0xa902bb14759f6def, 0x2c6fb5a30625328c] = 0x13238c710272a5d8
  have hsplit : ([0x22ffffffffffffff, 0x2dffffffffffffff, 0x148bffffffffffff, 0x19b7fffffffffffe, 0x74522ffffffffffe, 0x7966dffffffffffe, 0x47d148bffffffffe, 0x40e59b7ffffffffd, 0x871f4522fffffffd, 0x8003966dfffffffd, 0xf11c7d148bfffffd, 0xfa000e59b7fffffc, 0xe2c471f4522ffffc, 0xede8003966dffffc, 0x328b11c7d148bffc, 0x3db7a000e59b7ffb, 0xd4ca2c471f4522fb, 0xd9f6de8003966dfb, 0xa25328b11c7d148f, 0x1d67db7a000e59b2, 0x1894ca2c471f457, 0x14759f6de8003963, 0xa30625328b11c7d4, 0xec51d67db7a000e3, 0xd68c1894ca2c4719, 0x6bb14759f6de8005, 0xfb5a30625328b11a, 0xaec51d67db7a07, 0x1bed68c1894ca2c3, 0xa902bb14759f6def, 0x2c6fb5a30625328c] : List Nat)
      = [0x22ffffffffffffff, 0x2dffffffffffffff, 0x148bffffffffffff, 0x19b7fffffffffffe, 0x74522ffffffffffe, 0x7966dffffffffffe, 0x47d148bffffffffe, 0x40e59b7ffffffffd] ++ ([0x871f4522fffffffd, 0x8003966dfffffffd, 0xf11c7d148bfffffd, 0xfa000e59b7fffffc, 0xe2c471f4522ffffc, 0xede8003966dffffc, 0x328b11c7d148bffc, 0x3db7a000e59b7ffb] ++ ([0xd4ca2c471f4522fb, 0xd9f6de8003966dfb, 0xa25328b11c7d148f, 0x1d67db7a000e59b2, 0x1894ca2c471f457, 0x14759f6de8003963, 0xa30625328b11c7d4, 0xec51d67db7a000e3] ++ [0xd68c1894ca2c4719, 0x6bb14759f6de8005, 0xfb5a30625328b11a, 0xaec51d67db7a07, 0x1bed68c1894ca2c3, 0xa902bb14759f6def, 0x2c6fb5a30625328c])) := by rfl
  rw [hsplit, List.foldl_append, List.foldl_append, List.foldl_append]
  have h1 : List.foldl encRound (0x0 ^^^ 0xffffffffffffffff) [0x22ffffffffffffff, 0x2dffffffffffffff, 0x148bffffffffffff, 0x19b7fffffffffffe, 0x74522ffffffffffe, 0x7966dffffffffffe, 0x47d148bffffffffe, 0x40e59b7ffffffffd] = 0x3bf9bb1650f07528 := by decide
  have h2 : List.foldl encRound 0x3bf9bb1650f07528 [0x871f4522fffffffd, 0x8003966dfffffffd, 0xf11c7d148bfffffd, 0xfa000e59b7fffffc, 0xe2c471f4522ffffc, 0xede8003966dffffc, 0x328b11c7d148bffc, 0x3db7a000e59b7ffb] = 0x3c8b9bd913e8a0d8 := by decide
  have h3 : List.foldl encRound 0x3c8b9bd913e8a0d8 [0xd4ca2c471f4522fb, 0xd9f6de8003966dfb, 0xa25328b11c7d148f, 0x1d67db7a000e59b2, 0x1894ca2c471f457, 0x14759f6de8003963, 0xa30625328b11c7d4, 0xec51d67db7a000e3] = 0xab96d41f771e5171 := by decide
  have h4 : List.foldl encRound 0xab96d41f771e5171 [0xd68c1894ca2c4719, 0x6bb14759f6de8005, 0xfb5a30625328b11a, 0xaec51d67db7a07, 0x1bed68c1894ca2c3, 0xa902bb14759f6def, 0x2c6fb5a30625328c] = 0x13238c710272a5d8 := by decide
  rw [h1, h2, h3, h4]

lemma kat_enc128_ff_p1 : (Present.new_128 (List.replicate 16 0xff)).encrypt_block 0xffffffffffffffff = 0x628d9fbd4218e5b4 := by
  have hkeys : (Present.new_128 (List.replicate 16 0xff)).round_keys = [0xffffffffffffffff, 0x22ffffffffffffff, 0x2dffffffffffffff, 0x148bffffffffffff, 0x19b7fffffffffffe, 0x74522ffffffffffe, 0x7966dffffffffffe, 0x47d148bffffffffe, 0x40e59b7ffffffffd, 0x871f4522fffffffd, 0x8003966dfffffffd, 0xf11c7d148bfffffd, 0xfa000e59b7fffffc, 0xe2c471f4522ffffc, 0xede8003966dffffc, 0x328b11c7d148bffc, 0x3db7a000e59b7ffb, 0xd4ca2c471f4522fb, 0xd9f6de8003966dfb, 0xa25328b11c7d148f, 0x1d67db7a000e59b2, 0x1894ca2c471f457, 0x14759f6de8003963, 0xa30625328b11c7d4, 0xec51d67db7a000e3, 0xd68c1894ca2c4719, 0x6bb14759f6de8005, 0xfb5a30625328b11a, 0xaec51d67db7a07, 0x1bed68c1894ca2c3, 0xa902bb14759f6def, 0x2c6fb5a30625328c] := by decide
  rw [Present.encrypt_block, hkeys]
  show List.foldl encRound (0xffffffffffffffff ^^^ 0xffffffffffffffff) [0x22ffffffffffffff, 0x2dffffffffffffff, 0x148bffffffffffff, 0x19b7fffffffffffe, 0x74522ffffffffffe, 0x7966dffffffffffe, 0x47d148bffffffffe, 0x40e59b7ffffffffd, 0x871f4522fffffffd, 0x8003966dfffffffd, 0xf11c7d148bfffffd, 0xfa000e59b7fffffc, 0xe2c471f4522ffffc, 0xede8003966dffffc, 0x328b11c7d148bffc, 0x3db7a000e59b7ffb, 0xd4ca2c471f4522fb, 0xd9f6de8003966dfb, 0xa25328b11c7d148f, 0x1d67db7a000e59b2, 0x1894ca2c471f457, 0x14759f6de8003963, 0xa30625328b11c7d4, 0xec51d67db7a000e3, 0xd68c1894ca2c4719, 0x6bb14759f6de8005, 0xfb5a30625328b11a, 0xaec51d67db7a07, 0x1bed68c1894ca2c3, 0xa902bb14759f6def, 0x2c6fb5a30625328c] = 0x628d9fbd4218e5b4
  have hsplit : ([0x22ffffffffffffff, 0x2dffffffffffffff, 0x148bffffffffffff, 0x19b7fffffffffffe, 0x74522ffffffffffe, 0x7966dffffffffffe, 0x47d148bffffffffe, 0x40e59b7ffffffffd, 0x871f4522fffffffd, 0x8003966dfffffffd, 0xf11c7d148bfffffd, 0xfa000e59b7fffffc, 0xe2c471f4522ffffc, 0xede8003966dffffc, 0x328b11c7d148bffc, 0x3db7a000e59b7ffb, 0xd4ca2c471f4522fb, 0xd9f6de8003966dfb, 0xa25328b11c7d148f, 0x1d67db7a000e59b2, 0x1894ca2c471f457, 0x14759f6de8003963, 0xa30625328b11c7d4, 0xec51d67db7a000e3, 0xd68c1894ca2c4719, 0x6bb14759f6de8005, 0xfb5a30625328b11a, 0xaec51d67db7a07, 0x1bed68c1894ca2c3, 0xa902bb14759f6def, 0x2c6fb5a30625328c] : List Nat)
      = [0x22ffffffffffffff, 0x2dffffffffffffff, 0x148bffffffffffff, 0x19b7fffffffffffe, 0x74522ffffffffffe, 0x7966dffffffffffe, 0x47d148bffffffffe, 0x40e59b7ffffffffd] ++ ([0x871f4522fffffffd, 0x8003966dfffffffd, 0xf11c7d148bfffffd, 0xfa000e59b7fffffc, 0xe2c471f4522ffffc, 0xede8003966dffffc, 0x328b11c7d148bffc, 0x3db7a000e59b7ffb] ++ ([0xd4ca2c471f4522fb, 0xd9f6de8003966dfb, 0xa25328b11c7d148f, 0x1d67db7a000e59b2, 0x1894ca2c471f457, 0x14759f6de8003963, 0xa30625328b11c7d4, 0xec51d67db7a000e3] ++ [0xd68c1894ca2c4719, 0x6bb14759f6de8005, 0xfb5a30625328b11a, 0xaec51d67db7a07, 0x1bed68c1894ca2c3, 0xa902bb14759f6def, 0x2c6fb5a30625328c])) := by rfl
  rw [hsplit, List.foldl_append, List.foldl_append, List.foldl_append]
  have h1 : List.foldl encRound (0xffffffffffffffff ^^^ 0xffffffffffffffff) [0x22ffffffffffffff, 0x2dffffffffffffff, 0x148bffffffffffff, 0x19b7fffffffffffe, 0x74522ffffffffffe, 0x7966dffffffffffe, 0x47d148bffffffffe, 0x40e59b7ffffffffd] = 0xab38cc6ec84d6b55 := by decide
  have h2 : List.foldl encRound 0xab38cc6ec84d6b55 [0x871f4522fffffffd, 0x8003966dfffffffd, 0xf11c7d148bfffffd, 0xfa000e59b7fffffc, 0xe2c471f4522ffffc, 0xede8003966dffffc, 0x328b11c7d148bffc, 0x3db7a000e59b7ffb] = 0x5bacb473a30ab122 := by decide
  have h3 : List.foldl encRound 0x5bacb473a30ab122 [0xd4ca2c471f4522fb, 0xd9f6de8003966dfb, 0xa25328b11c7d148f, 0x1d67db7a000e59b2, 0x1894ca2c471f457, 0x14759f6de8003963, 0xa30625328b11c7d4, 0xec51d67db7a000e3] = 0x331a3c5e3ca95f2c := by decide
  have h4 : List.foldl encRound 0x331a3c5e3ca95f2c [0xd68c1894ca2c4719, 0x6bb14759f6de8005, 0xfb5a30625328b11a, 0xaec51d67db7a07, 0x1bed68c1894ca2c3, 0xa902bb14759f6def, 0x2c6fb5a30625328c] = 0x628d9fbd4218e5b4 := by decide
  rw [h1, h2, h3, h4]

lemma kat_enc128_cross : (Present.new_128 (toLeBytes16 0x0123456789abcdef0123456789abcdef)).encrypt_block 0x123456789abcdef = 0xe9d28685e671dd6 := by
  have hkeys : (Present.new_128 (toLeBytes16 0x0123456789abcdef0123456789abcdef)).round_keys = [0x123456789abcdef, 0x1c2468acf13579bd, 0x89048d159e26af37, 0x197091a2b3c4d5e6, 0x4a24123456789abd, 0x8365c2468acf1356, 0x7e289048d159e26b, 0xa10d97091a2b3c4c, 0xe5f8a2412345678b, 0xda84365c2468acf3, 0xa297e289048d159c, 0xed6a10d97091a2b1, 0x668a5f8a24123455, 0xf2b5a84365c24689, 0xb59a297e289048d2, 0x8cad6a10d970919, 0xb1d668a5f8a24127, 0x13232b5a84365c20, 0xcac759a297e28900, 0xcc4c8cad6a10d974, 0x382b1d668a5f8a21, 0x6b313232b5a84360, 0x5ce0ac759a297e2d, 0xf5acc4c8cad6a108, 0xce7382b1d668a5fe, 0x7dd6b313232b5a82, 0x9239ce0ac759a291, 0x67f75acc4c8cad6c, 0xef48e7382b1d668d, 0xfe9fdd6b313232b2, 0x2bd239ce0ac759d, 0x8dfa7f75acc4c8cd] := by decide
  rw [Present.encrypt_block, hkeys]
  show List.foldl encRound (0x123456789abcdef ^^^ 0x123456789abcdef) [0x1c2468acf13579bd, 0x89048d159e26af37, 0x197091a2b3c4d5e6, 0x4a24123456789abd, 0x8365c2468acf1356, 0x7e289048d159e26b, 0xa10d97091a2b3c4c, 0xe5f8a2412345678b, 0xda84365c2468acf3, 0xa297e289048d159c, 0xed6a10d97091a2b1, 0x668a5f8a24123455, 0xf2b5a84365c24689, 0xb59a297e289048d2, 0x8cad6a10d970919, 0xb1d668a5f8a24127, 0x13232b5a84365c20, 0xcac759a297e28900, 0xcc4c8cad6a10d974, 0x382b1d668a5f8a21, 0x6b313232b5a84360, 0x5ce0ac759a297e2d, 0xf5acc4c8cad6a108, 0xce7382b1d668a5fe, 0x7dd6b313232b5a82, 0x9239ce0ac759a291, 0x67f75acc4c8cad6c, 0xef48e7382b1d668d, 0xfe9fdd6b313232b2, 0x2bd239ce0ac759d, 0x8dfa7f75acc4c8cd] = 0xe9d28685e671dd6
  have hsplit : ([0x1c2468acf13579bd, 0x89048d159e26af37, 0x197091a2b3c4d5e6, 0x4a24123456789abd, 0x8365c2468acf1356, 0x7e289048d159e26b, 0xa10d97091a2b3c4c, 0xe5f8a2412345678b, 0xda84365c2468acf3, 0xa297e289048d159c, 0xed6a10d97091a2b1, 0x668a5f8a24123455, 0xf2b5a84365c24689, 0xb59a297e289048d2, 0x8cad6a10d970919, 0xb1d668a5f8a24127, 0x13232b5a84365c20, 0xcac759a297e28900, 0xcc4c8cad6a10d974, 0x382b1d668a5f8a21, 0x6b313232b5a84360, 0x5ce0ac759a297e2d, 0xf5acc4c8cad6a108, 0xce7382b1d668a5fe, 0x7dd6b313232b5a82, 0x9239ce0ac759a291, 0x67f75acc4c8cad6c, 0xef48e7382b1d668d, 0xfe9fdd6b313232b2, 0x2bd239ce0ac759d, 0x8dfa7f75acc4c8cd] : List Nat)
      = [0x1c2468acf13579bd, 0x89048d159e26af37, 0x197091a2b3c4d5e6, 0x4a24123456789abd, 0x8365c2468acf1356, 0x7e289048d159e26b, 0xa10d97091a2b3c4c, 0xe5f8a2412345678b] ++ ([0xda84365c2468acf3, 0xa297e289048d159c, 0xed6a10d97091a2b1, 0x668a5f8a24123455, 0xf2b5a84365c24689, 0xb59a297e289048d2, 0x8cad6a10d970919, 0xb1d668a5f8a24127] ++ ([0x13232b5a84365c20, 0xcac759a297e28900, 0xcc4c8cad6a10d974, 0x382b1d668a5f8a21, 0x6b313232b5a84360, 0x5ce0ac759a297e2d, 0xf5acc4c8cad6a108, 0xce7382b1d668a5fe] ++ [0x7dd6b313232b5a82, 0x9239ce0ac759a291, 0x67f75acc4c8cad6c, 0xef48e7382b1d668d, 0xfe9fdd6b313232b2, 0x2bd239ce0ac759d, 0x8dfa7f75acc4c8cd])) := by rfl
  rw [hsplit, List.foldl_append, List.foldl_append, List.foldl_append]
  have h1 : List.foldl encRound (0x123456789abcdef ^^^ 0x123456789abcdef) [0x1c2468acf13579bd, 0x89048d159e26af37, 0x197091a2b3c4d5e6, 0x4a24123456789abd, 0x8365c2468acf1356, 0x7e289048d159e26b, 0xa10d97091a2b3c4c, 0xe5f8a2412345678b] = 0xdaaebf58b5c2dfb7 := by decide
  have h2 : List.foldl encRound 0xdaaebf58b5c2dfb7 [0xda84365c2468acf3, 0xa297e289048d159c, 0xed6a10d97091a2b1, 0x668a5f8a24123455, 0xf2b5a84365c24689, 0xb59a297e289048d2, 0x8cad6a10d970919, 0xb1d668a5f8a24127] = 0xab4c868c70effae9 := by decide
  have h3 : List.foldl encRound 0xab4c868c70effae9 [0x13232b5a84365c20, 0xcac759a297e28900, 0xcc4c8cad6a10d974, 0x382b1d668a5f8a21, 0x6b313232b5a84360, 0x5ce0ac759a297e2d, 0xf5acc4c8cad6a108, 0xce7382b1d668a5fe] = 0x370a4bc7c248ec5f := by decide
  have h4 : List.foldl encRound 0x370a4bc7c248ec5f [0x7dd6b313232b5a82, 0x9239ce0ac759a291, 0x67f75acc4c8cad6c, 0xef48e7382b1d668d, 0xfe9fdd6b313232b2, 0x2bd239ce0ac759d, 0x8dfa7f75acc4c8cd] = 0xe9d28685e671dd6 := by decide
  rw [h1, h2, h3, h4]

/-! ## Claims C1 and C8 -/

/-- C1: For every 64-bit block `b` and every key of either width (any 10-byte key via
`new_80`, any 16-byte key via `new_128`), `decrypt_block (encrypt_block b) == b` on the
`Present` instance built from that key. -/
theorem C1_present_decrypt_encrypt_roundtrip (key80 key128 : List Nat) (b : Nat)
    (hlen80 : key80.length = 10) (hbytes80 : ∀ x ∈ key80, x < 256)
    (hlen128 : key128.length = 16) (hbytes128 : ∀ x ∈ key128, x < 256)
    (hb : b < 2 ^ 64) :
    (Present.new_80 key80).decrypt_block ((Present.new_80 key80).encrypt_block b) = b ∧
    (Present.new_128 key128).decrypt_block ((Present.new_128 key128).encrypt_block b) = b :=
  ⟨present_roundtrip_of_keys _ (fun k hk => roundKeys80Go_lt 32 _ 0 k hk) b hb,
   present_roundtrip_of_keys _ (fun k hk => roundKeys128Go_lt 32 _ 0 k hk) b hb⟩

theorem C1_witness :
    (Present.new_80 (List.replicate 10 0)).decrypt_block
        ((Present.new_80 (List.replicate 10 0)).encrypt_block 3) = 3 ∧
    (Present.new_128 (List.replicate 16 0)).decrypt_block
        ((Present.new_128 (List.replicate 16 0)).encrypt_block 3) = 3 :=
  C1_present_decrypt_encrypt_roundtrip (List.replicate 10 0) (List.replicate 16 0) 3
    (by decide) (by decide) (by decide) (by decide) (by norm_num)

/-- C8: The PRESENT known-answer vectors hold: with the all-zero 10-byte key,
`encrypt_block 0 = 0x5579c1387b228445`; with the all-zero 16-byte key,
`encrypt_block 0 = 0x96db702a2e6900af` and `encrypt_block (!0) = 0x3c6019e5e5edd563`;
with the all-0xff 16-byte key, `encrypt_block 0 = 0x13238c710272a5d8` and
`encrypt_block (!0) = 0x628d9fbd4218e5b4`; and encrypting `0x0123456789abcdef` under
the 128-bit key `0x0123456789abcdef0123456789abcdef` (mapped least-significant-byte
first) yields `0x0e9d28685e671dd6`; each of these ciphertexts decrypts back to its
plaintext. -/
theorem C8_known_answer_vectors :
    (Present.new_80 (List.replicate 10 0)).encrypt_block 0 = 0x5579c1387b228445 ∧
    (Present.new_128 (List.replicate 16 0)).encrypt_block 0 = 0x96db702a2e6900af ∧
    (Present.new_128 (List.replicate 16 0)).encrypt_block 0xffffffffffffffff
      = 0x3c6019e5e5edd563 ∧
    (Present.new_128 (List.replicate 16 0xff)).encrypt_block 0 = 0x13238c710272a5d8 ∧
    (Present.new_128 (List.replicate 16 0xff)).encrypt_block 0xffffffffffffffff
      = 0x628d9fbd4218e5b4 ∧
    (Present.new_128 (toLeBytes16 0x0123456789abcdef0123456789abcdef)).encrypt_block
      0x0123456789abcdef = 0x0e9d28685e671dd6 ∧
    (Present.new_80 (List.replicate 10 0)).decrypt_block 0x5579c1387b228445 = 0 ∧
    (Present.new_128 (List.replicate 16 0)).decrypt_block 0x96db702a2e6900af = 0 ∧
    (Present.new_128 (List.replicate 16 0)).decrypt_block 0x3c6019e5e5edd563
      = 0xffffffffffffffff ∧
    (Present.new_128 (List.replicate 16 0xff)).decrypt_block 0x13238c710272a5d8 = 0 ∧
    (Present.new_128 (List.replicate 16 0xff)).decrypt_block 0x628d9fbd4218e5b4
      = 0xffffffffffffffff ∧
    (Present.new_128 (toLeBytes16 0x0123456789abcdef0123456789abcdef)).decrypt_block
      0x0e9d28685e671dd6 = 0x0123456789abcdef := by
  have hrt80 : ∀ b, b < 2 ^ 64 →
      (Present.new_80 (List.replicate 10 0)).decrypt_block
        ((Present.new_80 (List.replicate 10 0)).encrypt_block b) = b :=
    fun b hb =>
      present_roundtrip_of_keys _ (fun k hk => roundKeys80Go_lt 32 _ 0 k hk) b hb
  have hrt128 : ∀ (key : List Nat) b, b < 2 ^ 64 →
      (Present.new_128 key).decrypt_block ((Present.new_128 key).encrypt_block b) = b :=
    fun key b hb =>
      present_roundtrip_of_keys _ (fun k hk => roundKeys128Go_lt 32 _ 0 k hk) b hb
  have d1 := hrt80 0 (by norm_num)
  rw [kat_enc80_zero] at d1
  have d2 := hrt128 (List.replicate 16 0) 0 (by norm_num)
  rw [kat_enc128_zero_p0] at d2
  have d3 := hrt128 (List.replicate 16 0) 0xffffffffffffffff (by norm_num)
  rw [kat_enc128_zero_p1] at d3
  have d4 := hrt128 (List.replicate 16 0xff) 0 (by norm_num)
  rw [kat_enc128_ff_p0] at d4
  have d5 := hrt128 (List.replicate 16 0xff) 0xffffffffffffffff (by norm_num)
  rw [kat_enc128_ff_p1] at d5
  have d6 := hrt128 (toLeBytes16 0x0123456789abcdef0123456789abcdef)
    0x0123456789abcdef (by norm_num)
  rw [kat_enc128_cross] at d6
  exact ⟨kat_enc80_zero, kat_enc128_zero_p0, kat_enc128_zero_p1, kat_enc128_ff_p0,
    kat_enc128_ff_p1, kat_enc128_cross, d1, d2, d3, d4, d5, d6⟩

/-! ## OTP digest (otp-digest lib.rs) -/

/-- `fn present_64bit_encrypt(plain, key) = Present::new_128(&key.to_le_bytes()).encrypt_block(plain)`. -/
def present_64bit_encrypt (plain key : Nat) : Nat :=
  (Present.new_128 (toLeBytes16 key)).encrypt_block plain

/-- The `for block in blocks { match prev ... }` loop of `otp_digest_iter`,
carrying `(state, prev)`. -/
def otpLoop : List Nat → Nat → Option Nat → Nat × Option Nat
  | [], state, prev => (state, prev)
  | block :: rest, state, prev =>
    match prev with
    | none => otpLoop rest state (some block)
    | some b0 =>
      otpLoop rest (state ^^^ present_64bit_encrypt state (b0 ||| (block <<< 64))) none

/-- The `if let Some(last) = prev` step of `otp_digest_iter`: a leftover odd block is
duplicated into both halves of the last 128-bit key. -/
def otpFinishOdd : Nat × Option Nat → Nat
  | (state, some last) => state ^^^ present_64bit_encrypt state (last ||| (last <<< 64))
  | (state, none) => state

/-- `otp_digest_iter`: run the pairing loop from `iv`, fold in a duplicated odd block,
then finalize with `cnst`. -/
def otp_digest_iter (blocks : List Nat) (iv cnst : Nat) : Nat :=
  let state := otpFinishOdd (otpLoop blocks iv none)
  state ^^^ present_64bit_encrypt state cnst

/-- `data.chunks_exact(8)`: the complete 8-byte chunks, in order; a trailing
remainder shorter than 8 bytes is dropped. -/
def chunks8 (l : List Nat) : List (List Nat) :=
  if h : 8 ≤ l.length then
    l.take 8 :: chunks8 (l.drop 8)
  else []
  termination_by l.length
  decreasing_by simp; omega

/-- `otp_digest`: asserts `data.len() % 8 == 0` (modelled as `none`), decodes each
chunk as a little-endian u64 and delegates to `otp_digest_iter`. -/
def otp_digest (data : List Nat) (iv cnst : Nat) : Option Nat :=
  if data.length % 8 = 0 then
    some (otp_digest_iter ((chunks8 data).map fromLeBytes) iv cnst)
  else none

/-! ## Claims C5 and C6: the digest entry points -/

/-- Spec-side model (§4.2): consume blocks two at a time, the first of the pair in the
low 64 bits and the second in the high 64 bits of the 128-bit key, Davies-Meyer step
`state ^= E_key(state)`; an odd final block is duplicated into both halves. -/
def digestCompressSpec : List Nat → Nat → Nat
  | [], state => state
  | [last], state => state ^^^ present_64bit_encrypt state (last ||| (last <<< 64))
  | b0 :: b1 :: rest, state =>
    digestCompressSpec rest (state ^^^ present_64bit_encrypt state (b0 ||| (b1 <<< 64)))

/-- Spec-side model (§4.2): after all data blocks (zero blocks included), one final
step encrypts the state under `cnst` and XORs the result in. -/
def otpDigestSpec (blocks : List Nat) (iv cnst : Nat) : Nat :=
  let s := digestCompressSpec blocks iv
  s ^^^ present_64bit_encrypt s cnst

lemma otpLoop_spec : ∀ l : List Nat,
    (∀ s, otpFinishOdd (otpLoop l s none) = digestCompressSpec l s) ∧
    (∀ s b0, otpFinishOdd (otpLoop l s (some b0)) = digestCompressSpec (b0 :: l) s) := by
  intro l
  induction l with
  | nil =>
    exact ⟨fun s => rfl, fun s b0 => rfl⟩
  | cons b rest ih =>
    constructor
    · intro s
      show otpFinishOdd (otpLoop rest s (some b)) = digestCompressSpec (b :: rest) s
      exact ih.2 s b
    · intro s b0
      show otpFinishOdd
          (otpLoop rest (s ^^^ present_64bit_encrypt s (b0 ||| (b <<< 64))) none)
        = digestCompressSpec (b0 :: b :: rest) s
      rw [ih.1]
      rfl

/-- C6: `otp_digest_iter` computes exactly the specified iterated compression:
starting from `state = iv`, consecutive block pairs form a 128-bit key with the first
block in the low 64 bits and the second in the high 64 bits, the state is XORed with
its own encryption under that key; an odd final block is duplicated into both halves
of the last key before the same step; after all blocks (zero blocks included) one
final step encrypts the state under `cnst` and XORs the result in, and the
accumulator is returned. -/
theorem C6_digest_iter_implements_spec (blocks : List Nat) (iv cnst : Nat) :
    otp_digest_iter blocks iv cnst = otpDigestSpec blocks iv cnst := by
  unfold otp_digest_iter otpDigestSpec
  rw [(otpLoop_spec blocks).1 iv]

/-- The spec's decoded word sequence: word `j` is the little-endian 64-bit value of
bytes `[8*j, 8*j + 8)` of the buffer. -/
def leWords (data : List Nat) : List Nat :=
  (List.range (data.length / 8)).map fun j => fromLeBytes ((data.drop (8 * j)).take 8)

lemma chunks8_eq_ranges : ∀ n (data : List Nat), data.length ≤ n →
    data.length % 8 = 0 →
    chunks8 data = (List.range (data.length / 8)).map fun j => (data.drop (8 * j)).take 8 := by
  intro n
  induction n with
  | zero =>
    intro data hlen hmod
    have h0 : data.length = 0 := by omega
    have hnil : data = [] := List.length_eq_zero.mp h0
    subst hnil
    rw [chunks8]
    simp
  | succ m ih =>
    intro data hlen hmod
    by_cases h8 : 8 ≤ data.length
    · rw [chunks8, dif_pos h8]
      have hlen' : (data.drop 8).length = data.length - 8 := by simp
      have hrec := ih (data.drop 8) (by omega) (by omega)
      rw [hrec]
      have hdiv : data.length / 8 = (data.drop 8).length / 8 + 1 := by
        rw [hlen']; omega
      rw [hdiv, List.range_succ_eq_map, List.map_cons, List.map_map]
      congr 1
      apply List.map_congr_left
      intro j hj
      simp only [Function.comp_apply, List.drop_drop]
      congr 2
      omega
    · rw [chunks8, dif_neg h8]
      have h0 : data.length = 0 := by omega
      rw [h0]
      simp

/-- C5: For every byte buffer whose length is a multiple of 8 and every `iv : u64` and
`cnst : u128`, `otp_digest bytes iv cnst` equals `otp_digest_iter` applied to the
sequence of little-endian 64-bit words decoded from that buffer with the same `iv`
and `cnst` — the whole-buffer and streaming digest entry points agree bit-for-bit on
the same logical data. -/
theorem C5_digest_agrees_with_stream (data : List Nat) (iv cnst : Nat)
    (hbytes : ∀ b ∈ data, b < 256) (hiv : iv < 2 ^ 64) (hcnst : cnst < 2 ^ 128)
    (hlen : data.length % 8 = 0) :
    otp_digest data iv cnst = some (otp_digest_iter (leWords data) iv cnst) := by
  unfold otp_digest
  rw [if_pos hlen]
  congr 1
  unfold leWords
  rw [chunks8_eq_ranges data.length data le_rfl hlen, List.map_map]
  rfl

theorem C5_witness :
    otp_digest [1, 2, 3, 4, 5, 6, 7, 8, 9, 10, 11, 12, 13, 14, 15, 16] 7 11
      = some (otp_digest_iter
          (leWords [1, 2, 3, 4, 5, 6, 7, 8, 9, 10, 11, 12, 13, 14, 15, 16]) 7 11) :=
  C5_digest_agrees_with_stream [1, 2, 3, 4, 5, 6, 7, 8, 9, 10, 11, 12, 13, 14, 15, 16]
    7 11 (by decide) (by norm_num) (by norm_num) (by decide)

/-! ## Platform Descriptor Store parser (pds lib.rs) -/

def PDS_MAGIC : Nat := 0x50445331

def PDS_HEADER_VERSION : Nat := 1

def CRC_POLY : Nat := 0x04C11DB7

def CRC_START_OFFSET : Nat := 12

def DEFAULT_MAX_DESCRIPTORS : Nat := 32

/-- `size_of::<PdsHeaderV1>()` = 5 × 4 + 128. -/
def PDS_HEADER_BYTES : Nat := 148

/-- `size_of::<PdsDescriptorHeaderV1>()` = 4 × 4 + 16. -/
def DESC_HEADER_BYTES : Nat := 32

inductive PdsError where
  | BufferTooSmall
  | InvalidMagic (found expected : Nat)
  | InvalidVersion (found expected : Nat)
  | InvalidHeaderSize (found expected : Nat)
  | InvalidCrc (found computed : Nat)
  | DescriptorOutOfBounds (offset : Nat)
  | PayloadOutOfBounds (offset size : Nat)
  | DescriptorLoop (offset : Nat)
  | InvalidDescriptorHeaderSize (found expected : Nat)
  | MaxDescriptorsExceeded
  deriving DecidableEq, Repr

structure PdsHeaderV1 where
  magic : Nat
  header_size : Nat
  header_crc : Nat
  version : Nat
  first_descriptor_offset : Nat
  pds_version_string : List Nat
  deriving DecidableEq, Repr

/-- Read a little-endian u32 at byte offset `off`. -/
def readU32 (data : List Nat) (off : Nat) : Nat :=
  data.getD off 0 + 256 * data.getD (off + 1) 0 + 65536 * data.getD (off + 2) 0
    + 16777216 * data.getD (off + 3) 0

/-- `PdsHeaderV1::read_from_prefix`: succeeds iff the buffer holds at least the
148-byte header; fields are little-endian at offsets 0/4/8/12/16, the version
string occupies bytes 20..148. -/
def readPdsHeader (data : List Nat) : Option PdsHeaderV1 :=
  if PDS_HEADER_BYTES ≤ data.length then
    some { magic := readU32 data 0, header_size := readU32 data 4,
           header_crc := readU32 data 8, version := readU32 data 12,
           first_descriptor_offset := readU32 data 16,
           pds_version_string := (data.drop 20).take 128 }
  else none

/-- One conditional shift-XOR round of `crc32_cksum`'s inner loop (u32 wrapping). -/
def crc32_round (crc : Nat) : Nat :=
  if crc &&& 0x80000000 ≠ 0 then ((crc <<< 1) % 2 ^ 32) ^^^ CRC_POLY
  else (crc <<< 1) % 2 ^ 32

/-- Per-byte step of `crc32_cksum`: `crc ^= (byte as u32) << 24` then 8 rounds. -/
def crc32_byte (crc byte : Nat) : Nat := crc32_round^[8] (crc ^^^ (byte <<< 24))

def crc32_cksum (data : List Nat) : Nat := data.foldl crc32_byte 0

def validate_header (data : List Nat) : Except PdsError PdsHeaderV1 :=
  let header_size := PDS_HEADER_BYTES
  match readPdsHeader data with
  | none => .error .BufferTooSmall
  | some header =>
    if header.magic ≠ PDS_MAGIC then
      .error (.InvalidMagic header.magic PDS_MAGIC)
    else if header.version < PDS_HEADER_VERSION then
      .error (.InvalidVersion header.version PDS_HEADER_VERSION)
    else if header.header_size < header_size then
      .error (.InvalidHeaderSize header.header_size header_size)
    else if data.length < header.header_size then
      .error .BufferTooSmall
    else
      let computed_crc := crc32_cksum ((data.take header.header_size).drop CRC_START_OFFSET)
      if computed_crc ≠ header.header_crc then
        .error (.InvalidCrc header.header_crc computed_crc)
      else .ok header

/-! ## Claim C2: the header validation sequence -/

/-- Validator modelled step-by-step on the spec's words (§4.4): buffer at least as
long as the fixed header width, else `BufferTooSmall`; magic equals the fixed tag,
else `InvalidMagic`; version at least 1, else `InvalidVersion`; `header_size` at
least the fixed minimum width, else `InvalidHeaderSize`; `header_size` not exceeding
the buffer length, else `BufferTooSmall`; CRC-32/CKSUM over bytes `[12, header_size)`
equal to the stored `header_crc`, else `InvalidCrc`; otherwise the parsed header. -/
def validateHeaderSpec (data : List Nat) : Except PdsError PdsHeaderV1 :=
  if data.length < PDS_HEADER_BYTES then .error .BufferTooSmall
  else
    let magic := readU32 data 0
    let header_size := readU32 data 4
    let header_crc := readU32 data 8
    let version := readU32 data 12
    if magic ≠ PDS_MAGIC then .error (.InvalidMagic magic PDS_MAGIC)
    else if version < 1 then .error (.InvalidVersion version 1)
    else if header_size < PDS_HEADER_BYTES then
      .error (.InvalidHeaderSize header_size PDS_HEADER_BYTES)
    else if data.length < header_size then .error .BufferTooSmall
    else
      let computed := crc32_cksum ((data.drop 12).take (header_size - 12))
      if computed ≠ header_crc then .error (.InvalidCrc header_crc computed)
      else
        .ok { magic := magic, header_size := header_size, header_crc := header_crc,
              version := version, first_descriptor_offset := readU32 data 16,
              pds_version_string := (data.drop 20).take 128 }

/-- C2: `validate_header` applies exactly the short-circuiting check sequence and
error taxonomy of the spec: buffer shorter than the fixed header width fails with
`BufferTooSmall`; then a wrong magic fails with `InvalidMagic`; then `version < 1`
fails with `InvalidVersion`; then a `header_size` below the fixed minimum fails with
`InvalidHeaderSize`; then a `header_size` exceeding the buffer length fails with
`BufferTooSmall`; then a CRC-32/CKSUM mismatch over bytes `[12, header_size)` fails
with `InvalidCrc`; otherwise the parsed header is returned by value. -/
theorem C2_validate_header_matches_spec (data : List Nat) :
    validate_header data = validateHeaderSpec data := by
  unfold validate_header validateHeaderSpec readPdsHeader
  by_cases h : PDS_HEADER_BYTES ≤ data.length
  · rw [if_pos h, if_neg (by omega)]
    have hslice : (data.take (readU32 data 4)).drop CRC_START_OFFSET
        = (data.drop 12).take (readU32 data 4 - 12) :=
      List.drop_take _ _ _
    simp only [hslice]
    rfl
  · rw [if_neg h, if_pos (by omega)]

/-! ## Descriptor chain walker -/

structure PdsDescriptorHeaderV1 where
  header_size : Nat
  payload_offset : Nat
  payload_size : Nat
  next_descriptor_offset : Nat
  descriptor_type : List Nat
  deriving DecidableEq, Repr

/-- `PdsDescriptorHeaderV1::read_from_prefix(&data[offset..])`. The walkers only
reach this read after checking `offset + 32 <= data.len()`, which makes it
infallible; fields are little-endian at relative offsets 0/4/8/12, the type UUID
occupies relative bytes 16..32. -/
def readDescHeader (data : List Nat) (off : Nat) : PdsDescriptorHeaderV1 :=
  { header_size := readU32 data off,
    payload_offset := readU32 data (off + 4),
    payload_size := readU32 data (off + 8),
    next_descriptor_offset := readU32 data (off + 12),
    descriptor_type := (data.drop (off + 16)).take 16 }

/-- `pub struct PdsDescriptor { descriptor_type, payload }`. -/
structure PdsDescriptor where
  descriptor_type : List Nat
  payload : List Nat
  deriving DecidableEq, Repr

/-- The `while next_offset != 0` loop of `for_each_descriptor`, with loop state
`(next_offset, count, prev_offset)`. -/
def forEachGo (data : List Nat) (max_descriptors : Nat) (callback : PdsDescriptor → Bool)
    (next_offset count prev_offset : Nat) : Except PdsError Unit :=
  if next_offset = 0 then .ok ()
  else if hmax : max_descriptors ≤ count then .error .MaxDescriptorsExceeded
  else if 0 < count ∧ next_offset ≤ prev_offset then .error (.DescriptorLoop next_offset)
  else if data.length < next_offset + DESC_HEADER_BYTES then
    .error (.DescriptorOutOfBounds next_offset)
  else if (readDescHeader data next_offset).header_size < DESC_HEADER_BYTES then
    .error (.InvalidDescriptorHeaderSize (readDescHeader data next_offset).header_size
      DESC_HEADER_BYTES)
  else if data.length < (readDescHeader data next_offset).payload_offset
      + (readDescHeader data next_offset).payload_size then
    .error (.PayloadOutOfBounds (readDescHeader data next_offset).payload_offset
      (readDescHeader data next_offset).payload_size)
  else if callback ⟨(readDescHeader data next_offset).descriptor_type,
      (data.drop (readDescHeader data next_offset).payload_offset).take
        (readDescHeader data next_offset).payload_size⟩ then
    forEachGo data max_descriptors callback
      (readDescHeader data next_offset).next_descriptor_offset (count + 1) next_offset
  else .ok ()
  termination_by max_descriptors - count
  decreasing_by omega

def for_each_descriptor (data : List Nat) (header : PdsHeaderV1) (max_descriptors : Nat)
    (callback : PdsDescriptor → Bool) : Except PdsError Unit :=
  forEachGo data max_descriptors callback header.first_descriptor_offset 0 0

/-- The `while next_offset != 0` loop of `find_descriptor`. Unlike `forEachGo` it
has a fixed cap of `DEFAULT_MAX_DESCRIPTORS`, checks the payload bounds only on a
UUID match, and performs no check of the descriptor's own `header_size`. -/
def findGo (data uuid : List Nat) (next_offset count prev_offset : Nat) :
    Except PdsError (Option (List Nat)) :=
  if next_offset = 0 then .ok none
  else if hmax : DEFAULT_MAX_DESCRIPTORS ≤ count then .error .MaxDescriptorsExceeded
  else if 0 < count ∧ next_offset ≤ prev_offset then .error (.DescriptorLoop next_offset)
  else if data.length < next_offset + DESC_HEADER_BYTES then
    .error (.DescriptorOutOfBounds next_offset)
  else if (readDescHeader data next_offset).descriptor_type = uuid then
    if data.length < (readDescHeader data next_offset).payload_offset
        + (readDescHeader data next_offset).payload_size then
      .error (.PayloadOutOfBounds (readDescHeader data next_offset).payload_offset
        (readDescHeader data next_offset).payload_size)
    else .ok (some ((data.drop (readDescHeader data next_offset).payload_offset).take
      (readDescHeader data next_offset).payload_size))
  else findGo data uuid (readDescHeader data next_offset).next_descriptor_offset
    (count + 1) next_offset
  termination_by DEFAULT_MAX_DESCRIPTORS - count
  decreasing_by omega

def find_descriptor (data : List Nat) (header : PdsHeaderV1) (uuid : List Nat) :
    Except PdsError (Option (List Nat)) :=
  findGo data uuid header.first_descriptor_offset 0 0

/-! ## Claims C4, C7, C10: traversal guards -/

lemma forEachGo_count0_prev (data : List Nat) (max_descriptors : Nat)
    (cb : PdsDescriptor → Bool) (next prev : Nat) :
    forEachGo data max_descriptors cb next 0 prev
      = forEachGo data max_descriptors cb next 0 0 := by
  rw [forEachGo]
  conv_rhs => rw [forEachGo]
  simp only [lt_self_iff_false, false_and, if_false]

lemma findGo_count0_prev (data uuid : List Nat) (next prev : Nat) :
    findGo data uuid next 0 prev = findGo data uuid next 0 0 := by
  rw [findGo]
  conv_rhs => rw [findGo]
  simp only [lt_self_iff_false, false_and, if_false]

/-- C4: For both `for_each_descriptor` and `find_descriptor`, whenever the traversal
reaches a descriptor offset that is not the first visited and that offset is less
than or equal to the previously visited offset, the call fails with `DescriptorLoop`
carrying that offset, even when the offset addresses otherwise well-formed descriptor
data; the very first descriptor offset is exempt from this comparison (the loop's
result at `count = 0` does not depend on `prev_offset` at all). -/
theorem C4_descriptor_loop_guard (data uuid : List Nat) (cb : PdsDescriptor → Bool)
    (max_descriptors next count prev prev1 prev2 : Nat)
    (h0 : next ≠ 0) (hc : 0 < count) (hle : next ≤ prev) :
    (count < max_descriptors →
      forEachGo data max_descriptors cb next count prev
        = .error (.DescriptorLoop next)) ∧
    (count < DEFAULT_MAX_DESCRIPTORS →
      findGo data uuid next count prev = .error (.DescriptorLoop next)) ∧
    forEachGo data max_descriptors cb next 0 prev1
        = forEachGo data max_descriptors cb next 0 prev2 ∧
    findGo data uuid next 0 prev1 = findGo data uuid next 0 prev2 := by
  refine ⟨?_, ?_, ?_, ?_⟩
  · intro hmax
    rw [forEachGo, if_neg h0, dif_neg (by omega), if_pos ⟨hc, hle⟩]
  · intro hmax32
    rw [findGo, if_neg h0, dif_neg (by omega), if_pos ⟨hc, hle⟩]
  · rw [forEachGo_count0_prev, forEachGo_count0_prev data max_descriptors cb next prev2]
  · rw [findGo_count0_prev, findGo_count0_prev data uuid next prev2]

theorem C4_witness :
    forEachGo [] 64 (fun _ => true) 40 39 40 = .error (.DescriptorLoop 40) ∧
    findGo [] [] 5 1 7 = .error (.DescriptorLoop 5) ∧
    forEachGo [] 2 (fun _ => true) 5 0 1 = forEachGo [] 2 (fun _ => true) 5 0 2 ∧
    findGo [] [] 5 0 1 = findGo [] [] 5 0 2 := by
  refine ⟨?_, ?_, ?_, ?_⟩
  · exact (C4_descriptor_loop_guard [] [] (fun _ => true) 64 40 39 40 0 0
      (by decide) (by decide) (by decide)).1 (by decide)
  · exact (C4_descriptor_loop_guard [] [] (fun _ => true) 2 5 1 7 0 0
      (by decide) (by decide) (by decide)).2.1 (by decide)
  · exact (C4_descriptor_loop_guard [] [] (fun _ => true) 2 5 1 7 1 2
      (by decide) (by decide) (by decide)).2.2.1
  · exact (C4_descriptor_loop_guard [] [] (fun _ => true) 2 5 1 7 1 2
      (by decide) (by decide) (by decide)).2.2.2

/-- C7: `for_each_descriptor`'s loop fails with `MaxDescriptorsExceeded` as soon as
the number of descriptors already visited reaches `max_descriptors` while a non-zero
next offset remains, even if every individual descriptor is well-formed;
`find_descriptor`'s loop applies the same rule with the fixed default cap of 32. -/
theorem C7_max_descriptors_guard (data uuid : List Nat) (cb : PdsDescriptor → Bool)
    (max_descriptors next count prev : Nat) (h0 : next ≠ 0) :
    (max_descriptors ≤ count →
      forEachGo data max_descriptors cb next count prev
        = .error .MaxDescriptorsExceeded) ∧
    (DEFAULT_MAX_DESCRIPTORS ≤ count →
      findGo data uuid next count prev = .error .MaxDescriptorsExceeded) := by
  constructor
  · intro hmax
    rw [forEachGo, if_neg h0, dif_pos hmax]
  · intro h32
    rw [findGo, if_neg h0, dif_pos h32]

theorem C7_witness :
    forEachGo [] 5 (fun _ => true) 9 5 4 = .error .MaxDescriptorsExceeded ∧
    findGo [] [] 9 32 4 = .error .MaxDescriptorsExceeded := by
  constructor
  · exact (C7_max_descriptors_guard [] [] (fun _ => true) 5 9 5 4 (by decide)).1
      (by decide)
  · exact (C7_max_descriptors_guard [] [] (fun _ => true) 5 9 32 4 (by decide)).2
      (by decide)

/-- C10: If the visit callback returns `false` for the descriptor at the current
offset (all per-descriptor validation having passed), `for_each_descriptor`'s loop
immediately returns ok — not an error — and reads no further chain entries, so
malformed descriptors situated after the stopping point are never detected and
cannot cause the call to fail: the result is `ok` whatever the rest of the buffer
holds. -/
theorem C10_callback_stop (data : List Nat) (cb : PdsDescriptor → Bool)
    (max_descriptors next count prev : Nat)
    (h0 : next ≠ 0) (hmax : count < max_descriptors)
    (hloop : count = 0 ∨ prev < next)
    (hbound : next + DESC_HEADER_BYTES ≤ data.length)
    (hhs : DESC_HEADER_BYTES ≤ (readDescHeader data next).header_size)
    (hpay : (readDescHeader data next).payload_offset
        + (readDescHeader data next).payload_size ≤ data.length)
    (hcb : cb ⟨(readDescHeader data next).descriptor_type,
        (data.drop (readDescHeader data next).payload_offset).take
          (readDescHeader data next).payload_size⟩ = false) :
    forEachGo data max_descriptors cb next count prev = .ok () := by
  rw [forEachGo, if_neg h0, dif_neg (by omega), if_neg (by omega),
    if_neg (by omega), if_neg (by omega), if_neg (by omega), if_neg (by simp [hcb])]

theorem C10_witness :
    forEachGo [0, 0, 0, 0, 32, 0, 0, 0, 0, 0, 0, 0, 0, 0, 0, 0, 0, 0, 0, 0,
        0, 0, 0, 0, 0, 0, 0, 0, 0, 0, 0, 0, 0, 0, 0, 0] 5
      (fun _ => false) 4 0 0 = .ok () :=
  C10_callback_stop _ (fun _ => false) 5 4 0 0 (by decide) (by decide)
    (Or.inl rfl) (by decide) (by decide) (by decide) rfl

/-! ## Claim C3: per-descriptor header_size validation -/

/-- A 36-byte buffer holding a single descriptor at offset 4 whose `header_size`
field is 0 and whose type UUID is all-zero. -/
def c3data : List Nat :=
  [0, 0, 0, 0,
   0, 0, 0, 0,
   0, 0, 0, 0,
   0, 0, 0, 0,
   0, 0, 0, 0,
   0, 0, 0, 0, 0, 0, 0, 0, 0, 0, 0, 0, 0, 0, 0, 0]

def c3header : PdsHeaderV1 :=
  { magic := PDS_MAGIC, header_size := PDS_HEADER_BYTES, header_crc := 0,
    version := 1, first_descriptor_offset := 4, pds_version_string := [] }

def c3uuid : List Nat := [1, 0, 0, 0, 0, 0, 0, 0, 0, 0, 0, 0, 0, 0, 0, 0]

/-- C3 counterexample: during `find_descriptor`'s traversal the descriptor read at
offset 4 has `header_size` 0, below the fixed minimum of 32, yet the call does not
fail with `InvalidDescriptorHeaderSize` — it completes with `ok none`. -/
theorem C3_counterexample :
    (readDescHeader c3data 4).header_size < DESC_HEADER_BYTES ∧
    find_descriptor c3data c3header c3uuid = .ok none ∧
    find_descriptor c3data c3header c3uuid
      ≠ .error (.InvalidDescriptorHeaderSize (readDescHeader c3data 4).header_size
          DESC_HEADER_BYTES) := by
  have heval : find_descriptor c3data c3header c3uuid = .ok none := by
    show findGo c3data c3uuid 4 0 0 = .ok none
    rw [findGo, if_neg (by decide), dif_neg (by decide), if_neg (by decide),
      if_neg (by decide), if_neg (by decide)]
    rw [show (readDescHeader c3data 4).next_descriptor_offset = 0 from by decide]
    rw [findGo]
    rfl
  exact ⟨by decide, heval, by rw [heval]; simp⟩

lemma findGo_no_ihs : ∀ fuel count, DEFAULT_MAX_DESCRIPTORS - count ≤ fuel →
    ∀ (data uuid : List Nat) (next prev f e : Nat),
      findGo data uuid next count prev ≠ .error (.InvalidDescriptorHeaderSize f e) := by
  intro fuel
  induction fuel with
  | zero =>
    intro count hc data uuid next prev f e
    rw [findGo]
    by_cases h0 : next = 0
    · rw [if_pos h0]; simp
    · rw [if_neg h0, dif_pos (by omega)]; simp
  | succ m ih =>
    intro count hc data uuid next prev f e
    rw [findGo]
    by_cases h0 : next = 0
    · rw [if_pos h0]; simp
    · rw [if_neg h0]
      by_cases hmax : DEFAULT_MAX_DESCRIPTORS ≤ count
      · rw [dif_pos hmax]; simp
      · rw [dif_neg hmax]
        by_cases hloop : 0 < count ∧ next ≤ prev
        · rw [if_pos hloop]; simp
        · rw [if_neg hloop]
          by_cases hoob : data.length < next + DESC_HEADER_BYTES
          · rw [if_pos hoob]; simp
          · rw [if_neg hoob]
            by_cases huuid : (readDescHeader data next).descriptor_type = uuid
            · rw [if_pos huuid]
              by_cases hpay : data.length < (readDescHeader data next).payload_offset
                  + (readDescHeader data next).payload_size
              · rw [if_pos hpay]; simp
              · rw [if_neg hpay]; simp
            · rw [if_neg huuid]
              exact ih (count + 1) (by omega) data uuid _ next f e

/-- C3 amended: the per-descriptor `header_size` validation belongs to
`for_each_descriptor` alone: its loop fails with `InvalidDescriptorHeaderSize` on any
visited descriptor whose `header_size` is below the fixed minimum width, while
`find_descriptor`'s traversal performs no such check — no call of its loop, from any
state, can produce `InvalidDescriptorHeaderSize`. -/
theorem C3_amended_header_size_check (data : List Nat) (cb : PdsDescriptor → Bool)
    (max_descriptors next count prev : Nat)
    (h0 : next ≠ 0) (hmax : count < max_descriptors)
    (hloop : count = 0 ∨ prev < next)
    (hbound : next + DESC_HEADER_BYTES ≤ data.length)
    (hhs : (readDescHeader data next).header_size < DESC_HEADER_BYTES) :
    forEachGo data max_descriptors cb next count prev
      = .error (.InvalidDescriptorHeaderSize (readDescHeader data next).header_size
          DESC_HEADER_BYTES) ∧
    ∀ (data' uuid' : List Nat) (next' count' prev' f e : Nat),
      findGo data' uuid' next' count' prev'
        ≠ .error (.InvalidDescriptorHeaderSize f e) := by
  constructor
  · rw [forEachGo, if_neg h0, dif_neg (by omega), if_neg (by omega),
      if_neg (by omega), if_pos hhs]
  · intro data' uuid' next' count' prev' f e
    exact findGo_no_ihs (DEFAULT_MAX_DESCRIPTORS - count') count' le_rfl
      data' uuid' next' prev' f e

theorem C3_amended_witness :
    forEachGo c3data 5 (fun _ => true) 4 0 0
      = .error (.InvalidDescriptorHeaderSize 0 32) ∧
    ∀ (data' uuid' : List Nat) (next' count' prev' f e : Nat),
      findGo data' uuid' next' count' prev'
        ≠ .error (.InvalidDescriptorHeaderSize f e) := by
  have h := C3_amended_header_size_check c3data (fun _ => true) 5 4 0 0
    (by decide) (by decide) (Or.inl rfl) (by decide) (by decide)
  rw [show (readDescHeader c3data 4).header_size = 0 from by decide] at h
  exact h

/-! ## Claim C9: the forward-only policy and descriptor regions -/

/-- Instrumented mirror of `for_each_descriptor`'s loop under an always-continuing
callback: it performs the identical validation sequence and collects each visited
`(offset, descriptor header)` pair in traversal order. -/
def visitedGo (data : List Nat) (max_descriptors : Nat)
    (next_offset count prev_offset : Nat) :
    Except PdsError (List (Nat × PdsDescriptorHeaderV1)) :=
  if next_offset = 0 then .ok []
  else if hmax : max_descriptors ≤ count then .error .MaxDescriptorsExceeded
  else if 0 < count ∧ next_offset ≤ prev_offset then .error (.DescriptorLoop next_offset)
  else if data.length < next_offset + DESC_HEADER_BYTES then
    .error (.DescriptorOutOfBounds next_offset)
  else if (readDescHeader data next_offset).header_size < DESC_HEADER_BYTES then
    .error (.InvalidDescriptorHeaderSize (readDescHeader data next_offset).header_size
      DESC_HEADER_BYTES)
  else if data.length < (readDescHeader data next_offset).payload_offset
      + (readDescHeader data next_offset).payload_size then
    .error (.PayloadOutOfBounds (readDescHeader data next_offset).payload_offset
      (readDescHeader data next_offset).payload_size)
  else
    (visitedGo data max_descriptors (readDescHeader data next_offset).next_descriptor_offset
      (count + 1) next_offset).map
      (fun rest => (next_offset, readDescHeader data next_offset) :: rest)
  termination_by max_descriptors - count
  decreasing_by omega

/-- `forEachGo` with an always-continuing callback succeeds exactly when the
instrumented walker does, with the same error otherwise. -/
lemma forEachGo_eq_visitedGo (data : List Nat) (max_descriptors : Nat) :
    ∀ fuel next count prev, max_descriptors - count ≤ fuel →
      forEachGo data max_descriptors (fun _ => true) next count prev
        = (visitedGo data max_descriptors next count prev).map (fun _ => ()) := by
  intro fuel
  induction fuel with
  | zero =>
    intro next count prev hc
    rw [forEachGo, visitedGo]
    by_cases h0 : next = 0
    · rw [if_pos h0, if_pos h0]; rfl
    · rw [if_neg h0, if_neg h0, dif_pos (by omega), dif_pos (by omega)]; rfl
  | succ m ih =>
    intro next count prev hc
    rw [forEachGo, visitedGo]
    by_cases h0 : next = 0
    · rw [if_pos h0, if_pos h0]; rfl
    · rw [if_neg h0, if_neg h0]
      by_cases hmax : max_descriptors ≤ count
      · rw [dif_pos hmax, dif_pos hmax]; rfl
      · rw [dif_neg hmax, dif_neg hmax]
        by_cases hloop : 0 < count ∧ next ≤ prev
        · rw [if_pos hloop, if_pos hloop]; rfl
        · rw [if_neg hloop, if_neg hloop]
          by_cases hoob : data.length < next + DESC_HEADER_BYTES
          · rw [if_pos hoob, if_pos hoob]; rfl
          · rw [if_neg hoob, if_neg hoob]
            by_cases hhs : (readDescHeader data next).header_size < DESC_HEADER_BYTES
            · rw [if_pos hhs, if_pos hhs]; rfl
            · rw [if_neg hhs, if_neg hhs]
              by_cases hpay : data.length < (readDescHeader data next).payload_offset
                  + (readDescHeader data next).payload_size
              · rw [if_pos hpay, if_pos hpay]; rfl
              · rw [if_neg hpay, if_neg hpay, if_pos rfl]
                rw [ih (readDescHeader data next).next_descriptor_offset (count + 1)
                  next (by omega)]
                cases visitedGo data max_descriptors
                    (readDescHeader data next).next_descriptor_offset (count + 1) next with
                | error e => rfl
                | ok rest => rfl

lemma visitedGo_invariant : ∀ fuel (data : List Nat) (max_descriptors next count prev : Nat)
    (l : List (Nat × PdsDescriptorHeaderV1)),
    max_descriptors - count ≤ fuel →
    visitedGo data max_descriptors next count prev = .ok l →
    (∀ hd, l.head? = some hd → (count = 0 ∨ prev < hd.1)) ∧
    List.Chain' (fun a b => a.1 < b.1) l ∧
    ∀ e ∈ l, e.2.payload_offset + e.2.payload_size ≤ data.length := by
  intro fuel
  induction fuel with
  | zero =>
    intro data max_descriptors next count prev l hc hok
    rw [visitedGo] at hok
    by_cases h0 : next = 0
    · rw [if_pos h0] at hok
      have hl : l = [] := by
        cases hok
        rfl
      subst hl
      refine ⟨fun hd h => by simp at h, by simp, by simp⟩
    · rw [if_neg h0, dif_pos (by omega)] at hok
      cases hok
  | succ m ih =>
    intro data max_descriptors next count prev l hc hok
    rw [visitedGo] at hok
    by_cases h0 : next = 0
    · rw [if_pos h0] at hok
      have hl : l = [] := by
        cases hok
        rfl
      subst hl
      refine ⟨fun hd h => by simp at h, by simp, by simp⟩
    · rw [if_neg h0] at hok
      by_cases hmax : max_descriptors ≤ count
      · rw [dif_pos hmax] at hok
        cases hok
      · rw [dif_neg hmax] at hok
        by_cases hloop : 0 < count ∧ next ≤ prev
        · rw [if_pos hloop] at hok
          cases hok
        · rw [if_neg hloop] at hok
          by_cases hoob : data.length < next + DESC_HEADER_BYTES
          · rw [if_pos hoob] at hok
            cases hok
          · rw [if_neg hoob] at hok
            by_cases hhs : (readDescHeader data next).header_size < DESC_HEADER_BYTES
            · rw [if_pos hhs] at hok
              cases hok
            · rw [if_neg hhs] at hok
              by_cases hpay : data.length < (readDescHeader data next).payload_offset
                  + (readDescHeader data next).payload_size
              · rw [if_pos hpay] at hok
                cases hok
              · rw [if_neg hpay] at hok
                cases hv : visitedGo data max_descriptors
                    (readDescHeader data next).next_descriptor_offset (count + 1) next with
                | error e => rw [hv] at hok; cases hok
                | ok rest =>
                  rw [hv] at hok
                  have hl : l = (next, readDescHeader data next) :: rest := by
                    cases hok
                    rfl
                  subst hl
                  obtain ⟨ihHead, ihChain, ihBound⟩ :=
                    ih data max_descriptors
                      (readDescHeader data next).next_descriptor_offset (count + 1) next
                      rest (by omega) hv
                  refine ⟨?_, ?_, ?_⟩
                  · intro hd hhd
                    rw [List.head?_cons] at hhd
                    cases hhd
                    show count = 0 ∨ prev < next
                    omega
                  · rw [List.chain'_cons']
                    refine ⟨?_, ihChain⟩
                    intro y hy
                    have hys := ihHead y hy
                    show next < y.1
                    omega
                  · intro e he
                    rcases List.mem_cons.mp he with rfl | he
                    · show (readDescHeader data next).payload_offset
                          + (readDescHeader data next).payload_size ≤ data.length
                      omega
                    · exact ihBound e he
/-- Two half-open byte ranges `[a, b)` and `[c, d)` overlap when some index lies in
both. -/
def rangesOverlap (a b c d : Nat) : Prop := max a c < min b d

/-- Bytes `[12, 148)` of the `C9` buffer: version 1, `first_descriptor_offset` 148,
and an all-zero 128-byte version string. -/
def c9body : List Nat := [1, 0, 0, 0, 0x94, 0, 0, 0] ++ List.replicate 128 0

/-- The CRC-32/CKSUM of `c9body` (established by `c9_crc_eval`). -/
def c9crc : Nat := 0x11c1b76f

lemma c9_crc_eval : crc32_cksum c9body = c9crc := by
  have hsplit : c9body
      = ([1, 0, 0, 0, 0x94, 0, 0, 0] ++ List.replicate 26 0)
        ++ (List.replicate 34 0 ++ (List.replicate 34 0 ++ List.replicate 34 0)) := by
    decide
  rw [hsplit]
  show List.foldl crc32_byte 0 _ = c9crc
  rw [List.foldl_append, List.foldl_append, List.foldl_append]
  have h1 : List.foldl crc32_byte 0 ([1, 0, 0, 0, 0x94, 0, 0, 0] ++ List.replicate 26 0)
      = 0x2a72f0c8 := by decide
  have h2 : List.foldl crc32_byte 0x2a72f0c8 (List.replicate 34 0) = 0x37122d31 := by
    decide
  have h3 : List.foldl crc32_byte 0x37122d31 (List.replicate 34 0) = 0x1c3970a8 := by
    decide
  have h4 : List.foldl crc32_byte 0x1c3970a8 (List.replicate 34 0) = 0x11c1b76f := by
    decide
  rw [h1, h2, h3, h4]
  rfl

/-- A 180-byte buffer: a valid 148-byte header (correct magic, size, CRC, version)
followed by one descriptor at offset 148 whose payload is bytes `[0, 4)` — inside
the header region. -/
def c9data : List Nat :=
  [0x31, 0x53, 0x44, 0x50, 0x94, 0, 0, 0, 0x6f, 0xb7, 0xc1, 0x11]
  ++ c9body
  ++ [32, 0, 0, 0,
      0, 0, 0, 0,
      4, 0, 0, 0,
      0, 0, 0, 0,
      0, 0, 0, 0, 0, 0, 0, 0, 0, 0, 0, 0, 0, 0, 0, 0]

def c9header : PdsHeaderV1 :=
  { magic := PDS_MAGIC, header_size := 148, header_crc := c9crc, version := 1,
    first_descriptor_offset := 148, pds_version_string := List.replicate 128 0 }

lemma c9_validate_eval : validate_header c9data = .ok c9header := by
  have hread : readPdsHeader c9data = some c9header := by decide
  rw [validate_header, hread]
  show (if c9header.magic ≠ PDS_MAGIC then
        Except.error (.InvalidMagic c9header.magic PDS_MAGIC)
      else if c9header.version < PDS_HEADER_VERSION then
        Except.error (.InvalidVersion c9header.version PDS_HEADER_VERSION)
      else if c9header.header_size < PDS_HEADER_BYTES then
        Except.error (.InvalidHeaderSize c9header.header_size PDS_HEADER_BYTES)
      else if c9data.length < c9header.header_size then
        Except.error PdsError.BufferTooSmall
      else if crc32_cksum ((c9data.take c9header.header_size).drop CRC_START_OFFSET)
          ≠ c9header.header_crc then
        Except.error (.InvalidCrc c9header.header_crc
          (crc32_cksum ((c9data.take c9header.header_size).drop CRC_START_OFFSET)))
      else Except.ok c9header) = Except.ok c9header
  rw [if_neg (by decide), if_neg (by decide), if_neg (by decide), if_neg (by decide),
    show (c9data.take c9header.header_size).drop CRC_START_OFFSET = c9body from by decide,
    c9_crc_eval, if_neg (by decide)]

lemma c9_visited_eval : visitedGo c9data DEFAULT_MAX_DESCRIPTORS 148 0 0
    = .ok [(148, readDescHeader c9data 148)] := by
  rw [visitedGo, if_neg (by decide), dif_neg (by decide), if_neg (by decide),
    if_neg (by decide), if_neg (by decide), if_neg (by decide)]
  rw [show (readDescHeader c9data 148).next_descriptor_offset = 0 from by decide]
  rw [visitedGo]
  rfl

lemma c9_foreach_eval :
    for_each_descriptor c9data c9header DEFAULT_MAX_DESCRIPTORS (fun _ => true)
      = .ok () := by
  show forEachGo c9data DEFAULT_MAX_DESCRIPTORS (fun _ => true) 148 0 0 = .ok ()
  rw [forEachGo_eq_visitedGo c9data DEFAULT_MAX_DESCRIPTORS DEFAULT_MAX_DESCRIPTORS
    148 0 0 (by omega), c9_visited_eval]
  rfl

/-- C9 counterexample: `c9data` validates, `for_each_descriptor` completes
successfully with an always-continuing callback, exactly one descriptor is yielded,
and its payload byte range `[0, 4)` overlaps the header region `[0, 148)` — the
walker's forward-only policy does not prevent a descriptor payload from aliasing
the header region. -/
theorem C9_counterexample :
    validate_header c9data = .ok c9header ∧
    for_each_descriptor c9data c9header DEFAULT_MAX_DESCRIPTORS (fun _ => true)
      = .ok () ∧
    visitedGo c9data DEFAULT_MAX_DESCRIPTORS c9header.first_descriptor_offset 0 0
      = .ok [(148, readDescHeader c9data 148)] ∧
    rangesOverlap (readDescHeader c9data 148).payload_offset
      ((readDescHeader c9data 148).payload_offset
        + (readDescHeader c9data 148).payload_size)
      0 c9header.header_size :=
  ⟨c9_validate_eval, c9_foreach_eval, c9_visited_eval, by unfold rangesOverlap; decide⟩

/-- C9 corrected: under the walker's forward-only policy, a successful
always-continue traversal visits strictly increasing descriptor offsets and every
yielded payload range lies inside the buffer; the walker enforces no disjointness
between a payload range and the header region or previously visited descriptor
regions. -/
theorem C9_amended_forward_only (data : List Nat) (header : PdsHeaderV1)
    (max_descriptors : Nat) (l : List (Nat × PdsDescriptorHeaderV1))
    (hok : visitedGo data max_descriptors header.first_descriptor_offset 0 0 = .ok l) :
    for_each_descriptor data header max_descriptors (fun _ => true) = .ok () ∧
    List.Chain' (fun a b => a.1 < b.1) l ∧
    ∀ e ∈ l, e.2.payload_offset + e.2.payload_size ≤ data.length := by
  obtain ⟨hHead, hChain, hBound⟩ :=
    visitedGo_invariant (max_descriptors - 0) data max_descriptors
      header.first_descriptor_offset 0 0 l le_rfl hok
  refine ⟨?_, hChain, hBound⟩
  show forEachGo data max_descriptors (fun _ => true) header.first_descriptor_offset 0 0
    = .ok ()
  rw [forEachGo_eq_visitedGo data max_descriptors max_descriptors
    header.first_descriptor_offset 0 0 (by omega), hok]
  rfl

theorem C9_amended_witness :
    for_each_descriptor c9data c9header DEFAULT_MAX_DESCRIPTORS (fun _ => true)
      = .ok () ∧
    List.Chain' (fun a b => a.1 < b.1) [(148, readDescHeader c9data 148)] ∧
    ∀ e ∈ [(148, readDescHeader c9data 148)],
      e.2.payload_offset + e.2.payload_size ≤ c9data.length :=
  C9_amended_forward_only c9data c9header DEFAULT_MAX_DESCRIPTORS
    [(148, readDescHeader c9data 148)] c9_visited_eval
